import Mathlib

/-!
Verification of the nest-gps-listner GPS gateway against its specification.

The TypeScript sources are shallowly embedded: a Node `Buffer` becomes a
`List Nat` of byte values, `buffer[i]` / `readUIntBE` become `byteAt` /
`readU16BE` / `readU32BE` (out-of-range reads default to 0; the theorems
below only use them on inputs long enough for every read, matching the
source paths where the reads succeed), floating-point coordinates become
exact rationals (the decoders only divide by constants and negate, and the
proved properties concern sign and range, which the rational model shares
with the binary64 evaluation on in-range inputs), and the asynchronous
service methods become explicit state-passing functions.
-/

namespace GpsListner

/-- `buffer[i]` on a Node Buffer, as used by the decoders. -/
def byteAt (b : List Nat) (i : Nat) : Nat := b.getD i 0

/-- `buffer.readUInt16BE(i)`. -/
def readU16BE (b : List Nat) (i : Nat) : Nat :=
  256 * byteAt b i + byteAt b (i + 1)

/-- `buffer.readUInt32BE(i)`. -/
def readU32BE (b : List Nat) (i : Nat) : Nat :=
  16777216 * byteAt b i + 65536 * byteAt b (i + 1) + 256 * byteAt b (i + 2) + byteAt b (i + 3)

/-- `buffer.slice(s, e)`. -/
def bufSlice (b : List Nat) (s e : Nat) : List Nat :=
  (b.drop s).take (e - s)

/-- One byte step of `BaseDecoder.calculateCrc16` (part_008 lines 82-95):
`crc ^= byte << 8` followed by eight conditional shifts with polynomial
0x1021.  The JS source lets high bits accumulate and masks only on return;
since shifting never moves bits downwards, the low 16 bits evolve exactly
as in this per-step-masked version. -/
def crc16Byte (crc byte : Nat) : Nat :=
  let c0 := crc ^^^ (byte <<< 8)
  (List.range 8).foldl
    (fun c _ =>
      if c &&& 0x8000 ≠ 0 then ((c <<< 1) ^^^ 0x1021) &&& 0xffff
      else (c <<< 1) &&& 0xffff)
    c0

/-- `BaseDecoder.calculateCrc16(buffer, start, end)`: CRC over the byte
range `[start, end)`, initial value 0xFFFF, polynomial 0x1021 (CRC-ITU /
CRC-CCITT), low 16 bits of the result. -/
def calculateCrc16 (b : List Nat) (s e : Nat) : Nat :=
  ((bufSlice b s e).foldl crc16Byte 0xffff) &&& 0xffff

/-- The additive fallback checksum of `GT06Decoder.decode` (gt06.decoder.ts
lines 126-131): `sum of bytes in [start, end)` masked to 16 bits. -/
def additiveChecksum (b : List Nat) (s e : Nat) : Nat :=
  ((bufSlice b s e).foldl (· + ·) 0) &&& 0xffff

/-- One byte step of CRC-16/IBM (polynomial 0xA001 reflected, as named by
the specification for Teltonika frames).  This definition follows the
spec's words, not the repository code; it exists to compare the claimed
Teltonika CRC against the one the code actually computes. -/
def crc16IbmByte (crc byte : Nat) : Nat :=
  (List.range 8).foldl
    (fun c _ => if c &&& 1 ≠ 0 then (c >>> 1) ^^^ 0xA001 else c >>> 1)
    (crc ^^^ byte)

/-- CRC-16/IBM with initial value 0 over a byte range, following the
spec's words (spec.md §4.2.2) for comparison with `calculateCrc16`. -/
def crc16Ibm (b : List Nat) (s e : Nat) : Nat :=
  (bufSlice b s e).foldl crc16IbmByte 0

/-! ## Frame reassembly (tcp-server `handleData` with the per-port framing) -/

/-- `GT06_START_BIT` (0x7878) from gt06.types.ts. -/
def GT06_START_BIT : Nat := 0x7878

/-- `GT06_START_BIT_LONG` (0x7979) from gt06.types.ts. -/
def GT06_START_BIT_LONG : Nat := 0x7979

/-- `GT06Service.getPacketLength` (process.gt06.ts lines 106-124). -/
def gt06GetPacketLength (b : List Nat) : Nat :=
  if b.length < 3 then 0
  else if readU16BE b 0 = GT06_START_BIT then byteAt b 2 + 5
  else if readU16BE b 0 = GT06_START_BIT_LONG then
    if b.length < 4 then 0 else readU16BE b 2 + 6
  else 0

/-- `GT06Service.hasCompletePacket` (process.gt06.ts lines 89-101);
`MIN_PACKET_LENGTH = 10`. -/
def gt06HasCompletePacket (b : List Nat) : Bool :=
  if b.length < 10 then false
  else if readU16BE b 0 ≠ GT06_START_BIT ∧ readU16BE b 0 ≠ GT06_START_BIT_LONG then false
  else decide (gt06GetPacketLength b > 0 ∧ b.length ≥ gt06GetPacketLength b)

/-- `TeltonikaService.getPacketLength` (teltonika.service.ts lines 56-79);
`IMEI_LENGTH = 15`, `IMEI_PACKET_LENGTH = 17`. -/
def teltonikaGetPacketLength (b : List Nat) : Nat :=
  if b.length < 2 then 0
  else if readU16BE b 0 = 15 then 17
  else if b.length < 8 then 0
  else if readU32BE b 0 ≠ 0 then 0
  else 8 + readU32BE b 4 + 4

/-- `TeltonikaService.hasCompletePacket` (teltonika.service.ts lines 33-51). -/
def teltonikaHasCompletePacket (b : List Nat) : Bool :=
  if b.length < 2 then false
  else if readU16BE b 0 = 15 ∧ b.length ≥ 17 then true
  else if b.length < 8 then false
  else decide (teltonikaGetPacketLength b > 0 ∧ b.length ≥ teltonikaGetPacketLength b)

/-- A protocol framing: the `hasCompletePacket` / `getPacketLength` pair a
decoder exposes to `TcpServerService.handleData`. -/
structure Framing where
  hasComplete : List Nat → Bool
  getLen : List Nat → Nat

/-- The GT06 framing registered for the GT06 port. -/
def gt06Framing : Framing := ⟨gt06HasCompletePacket, gt06GetPacketLength⟩

/-- The Teltonika framing registered for the Teltonika port. -/
def teltonikaFraming : Framing := ⟨teltonikaHasCompletePacket, teltonikaGetPacketLength⟩

/-- The frame-extraction loop of `TcpServerService.handleData` (part_007
lines 193-232), fuel-indexed: while the buffer holds a complete packet,
slice `getPacketLength` bytes off the front as one frame (`break` when the
length is 0).  Returns the extracted frames and the remaining buffer.
Each iteration consumes at least one byte, so any fuel of at least the
buffer length computes the loop's fixpoint. -/
def drainGo (F : Framing) : Nat → List Nat → List (List Nat) × List Nat
  | 0, b => ([], b)
  | fuel + 1, b =>
    if F.hasComplete b then
      let len := F.getLen b
      if len = 0 then ([], b)
      else
        let r := drainGo F fuel (b.drop len)
        (b.take len :: r.1, r.2)
    else ([], b)

/-- Frames extracted from a buffer by one `handleData` invocation. -/
def drain (F : Framing) (b : List Nat) : List (List Nat) × List Nat :=
  drainGo F b.length b

/-- Successive `handleData` calls: append each arriving chunk to the
held buffer and extract the complete frames. -/
def feedChunks (F : Framing) (buf : List Nat) : List (List Nat) → List (List Nat)
  | [] => []
  | c :: cs =>
    let r := drain F (buf ++ c)
    r.1 ++ feedChunks F r.2 cs

/-! ## Decoded-packet data model (base/decoder.interface.ts) -/

/-- `PacketType` from decoder.interface.ts. -/
inductive PacketType where
  | LOGIN | HEARTBEAT | LOCATION | ALARM | STATUS | UNKNOWN
  deriving DecidableEq, Repr

/-- `BaseDecoder.isValidCoordinate` (part_008 lines 115-118). -/
def isValidCoordinate (lat lon : ℚ) : Bool :=
  decide (lat ≥ -90 ∧ lat ≤ 90 ∧ lon ≥ -180 ∧ lon ≤ 180 ∧ (lat ≠ 0 ∨ lon ≠ 0))

/-- Lowercase hex digit, as produced by `Number.toString(16)`. -/
def hexDigit (n : Nat) : Char :=
  if n < 10 then Char.ofNat (48 + n) else Char.ofNat (87 + n)

/-- `buffer[i].toString(16).padStart(2, '0')` for a byte value. -/
def byteToHex (n : Nat) : String :=
  String.mk [hexDigit (n / 16 % 16), hexDigit (n % 16)]

/-- `Buffer.toString('hex')` of a byte list. -/
def bytesToHex (bs : List Nat) : String :=
  String.join (bs.map byteToHex)

/-- `BaseDecoder.hexToImei` (part_008 line 76): strip leading zeros, no
minimum-digit fallback. -/
def hexToImei (hex : String) : String :=
  String.mk (hex.toList.dropWhile (· = '0'))

/-- `GT06Decoder.parseImei` (gt06.decoder.ts lines 384-399): per-byte hex,
leading zeros stripped with `'0'` fallback. -/
def decoderParseImei (bs : List Nat) : String :=
  let imei := String.mk ((bytesToHex bs).toList.dropWhile (· = '0'))
  if imei = "" then "0" else imei

/-! ## GT06 service decoder (process.gt06.ts `GT06Service`) -/

/-- `GT06LocationInfo` as populated by `GT06Service.decodeLocation`
(process.gt06.ts lines 262-387).  The `Date` is kept as its six decoded
components. -/
structure GT06Loc where
  gpsLength : Nat
  satelliteCount : Nat
  latitude : ℚ
  longitude : ℚ
  speed : Nat
  course : Nat
  year : Nat
  month : Nat
  day : Nat
  hour : Nat
  minute : Nat
  second : Nat
  mcc : Nat
  mnc : Nat
  lac : Nat
  cellId : Nat
  acc : Bool
  gpsFixed : Bool
  gpsRealtime : Bool
  deriving DecidableEq, Repr

/-- `GT06Service.decodeLocation` body (process.gt06.ts lines 262-387).
Returns the location info together with the computed `valid` flag
(`isValidCoordinate(latitude, longitude) && gpsFixed`). -/
def gt06ServiceDecodeLocation (b : List Nat) (offset : Nat) : GT06Loc × Bool :=
  let year := 2000 + byteAt b offset
  let month := byteAt b (offset + 1)
  let day := byteAt b (offset + 2)
  let hour := byteAt b (offset + 3)
  let minute := byteAt b (offset + 4)
  let second := byteAt b (offset + 5)
  let gpsInfo := byteAt b (offset + 6)
  let gpsLength := (gpsInfo >>> 4) &&& 0x0f
  let satelliteCount := gpsInfo &&& 0x0f
  let latRaw := readU32BE b (offset + 7)
  let lonRaw := readU32BE b (offset + 11)
  let speed := byteAt b (offset + 15)
  let courseStatus := readU16BE b (offset + 16)
  let course := courseStatus &&& 0x03ff
  let gpsRealtime := courseStatus &&& 0x2000 ≠ 0
  let gpsFixed := courseStatus &&& 0x1000 ≠ 0
  let lonWest := courseStatus &&& 0x0800 ≠ 0
  let latNorth := courseStatus &&& 0x0400 ≠ 0
  let latitude : ℚ := if latNorth then (latRaw : ℚ) / 1800000 else -((latRaw : ℚ) / 1800000)
  let longitude : ℚ := if lonWest then -((lonRaw : ℚ) / 1800000) else (lonRaw : ℚ) / 1800000
  -- remaining bytes before serial + crc + stop, computed in JS arithmetic
  let remainingBytes : Int := (b.length : Int) - (offset + 18) - 6
  let hasLbs := remainingBytes ≥ 8
  let mcc := if hasLbs then readU16BE b (offset + 18) else 0
  let mnc := if hasLbs then byteAt b (offset + 20) else 0
  let lac := if hasLbs then readU16BE b (offset + 21) else 0
  let cellId := if hasLbs then readU32BE b (offset + 22) &&& 0x00ffffff else 0
  let acc := if remainingBytes ≥ 9 then byteAt b (offset + 26) &&& 0x01 ≠ 0 else false
  let info : GT06Loc :=
    { gpsLength, satelliteCount, latitude, longitude, speed, course,
      year, month, day, hour, minute, second, mcc, mnc, lac, cellId, acc,
      gpsFixed, gpsRealtime }
  (info, isValidCoordinate latitude longitude && gpsFixed)

/-- `GT06StatusInfo` (gt06.types.ts), as filled by `decodeHeartbeat` /
`decodeStatus`. -/
structure GT06Status where
  terminalInfo : Nat
  batteryLevel : Nat
  gsmSignal : Nat
  alarm : Nat
  language : Nat
  deriving DecidableEq, Repr

/-- The protocol-specific payload of a `GT06Service` decoded packet. -/
inductive GT06Payload where
  | login (imeiHex : String)
  | heartbeat (s : GT06Status)
  | location (info : GT06Loc) (valid : Bool)
  | alarm (info : GT06Loc) (valid : Bool)
  | status (s : GT06Status)
  | unknown
  deriving DecidableEq, Repr

/-- A `DecodedPacket` as produced by `GT06Service.decode` (the `raw`
buffer and wall-clock timestamps are omitted; no claim concerns them). -/
structure GT06Packet where
  ptype : PacketType
  imei : Option String
  requiresAck : Bool
  serial : Nat
  payload : GT06Payload
  deriving DecidableEq, Repr

/-- `GT06Service.decode` (process.gt06.ts lines 129-207).  Dispatches on
the protocol byte and appends the serial number read from
`buffer.length - 6`.  Note: no checksum of any kind is verified. -/
def gt06ServiceDecode (b : List Nat) (imeiFromMeta : Option String) : GT06Packet :=
  let isLongPacket := readU16BE b 0 = GT06_START_BIT_LONG
  let offset := if isLongPacket then 4 else 3
  let protocolNumber := byteAt b offset
  let offset := offset + 1
  let serialNumber := readU16BE b (b.length - 6)
  if protocolNumber = 0x01 then
    let imeiHex := bytesToHex (bufSlice b offset (offset + 8))
    { ptype := PacketType.LOGIN, imei := some (hexToImei imeiHex),
      requiresAck := true, serial := serialNumber, payload := GT06Payload.login imeiHex }
  else if protocolNumber = 0x13 then
    let s : GT06Status :=
      { terminalInfo := byteAt b offset, batteryLevel := byteAt b (offset + 1),
        gsmSignal := byteAt b (offset + 2), alarm := byteAt b (offset + 3),
        language := byteAt b (offset + 4) }
    { ptype := PacketType.HEARTBEAT, imei := imeiFromMeta,
      requiresAck := true, serial := serialNumber, payload := GT06Payload.heartbeat s }
  else if protocolNumber = 0x12 ∨ protocolNumber = 0x22 then
    let r := gt06ServiceDecodeLocation b offset
    { ptype := PacketType.LOCATION, imei := imeiFromMeta,
      requiresAck := true, serial := serialNumber, payload := GT06Payload.location r.1 r.2 }
  else if protocolNumber = 0x16 ∨ protocolNumber = 0x26 then
    let r := gt06ServiceDecodeLocation b offset
    { ptype := PacketType.ALARM, imei := imeiFromMeta,
      requiresAck := true, serial := serialNumber, payload := GT06Payload.alarm r.1 r.2 }
  else if protocolNumber = 0x1a then
    let s : GT06Status :=
      { terminalInfo := byteAt b offset, batteryLevel := byteAt b (offset + 1),
        gsmSignal := byteAt b (offset + 2), alarm := byteAt b (offset + 3),
        language := byteAt b (offset + 4) }
    { ptype := PacketType.STATUS, imei := imeiFromMeta,
      requiresAck := true, serial := serialNumber, payload := GT06Payload.status s }
  else
    { ptype := PacketType.UNKNOWN, imei := imeiFromMeta,
      requiresAck := true, serial := serialNumber, payload := GT06Payload.unknown }

/-- The ACK protocol byte chosen by `GT06Service.generateAck`
(process.gt06.ts lines 440-455). -/
def gt06AckProtocolNumber : PacketType → Nat
  | PacketType.LOGIN => 0x01
  | PacketType.HEARTBEAT => 0x13
  | PacketType.LOCATION => 0x12
  | PacketType.ALARM => 0x16
  | _ => 0x01

/-- `GT06Service.generateAck` (process.gt06.ts lines 433-495): the fixed
10-byte ACK `7878 05 proto serial(2) crc(2) 0D0A`, CRC over bytes
`[2, 6)`. -/
def gt06GenerateAck (p : GT06Packet) : List Nat :=
  let front := [0x78, 0x78, 0x05, gt06AckProtocolNumber p.ptype,
    (p.serial >>> 8) &&& 0xff, p.serial &&& 0xff]
  let crc := calculateCrc16 front 2 6
  front ++ [(crc >>> 8) &&& 0xff, crc &&& 0xff, 0x0d, 0x0a]

/-- `GT06Service.encodeCommand` (process.gt06.ts lines 653-704); the
command string is carried as its UTF-8 bytes. -/
def gt06EncodeCommand (commandBytes : List Nat) (serialNumber : Nat) : List Nat :=
  let packetLength := commandBytes.length + 7
  let front := [0x78, 0x78, packetLength, 0x80,
      (commandBytes.length >>> 8) &&& 0xff, commandBytes.length &&& 0xff] ++
    commandBytes ++ [(serialNumber >>> 8) &&& 0xff, serialNumber &&& 0xff]
  let crc := calculateCrc16 front 2 front.length
  front ++ [(crc >>> 8) &&& 0xff, crc &&& 0xff, 0x0d, 0x0a]

/-! ## GT06 standalone decoder (gt06.decoder.ts `GT06Decoder`) -/

/-- `GT06Decoder.hasCompletePacket` (gt06.decoder.ts lines 22-51).  The
stop-bit comparison is subsumed by the final `buffer.length >= totalLength`
return, faithfully kept. -/
def gt06DecoderHasCompletePacket (b : List Nat) : Bool :=
  if b.length < 5 then false
  else if byteAt b 0 = 0x78 then decide (b.length ≥ 4 + 1 + byteAt b 2)
  else if byteAt b 0 = 0x79 then
    if b.length < 4 then false else decide (b.length ≥ 4 + 2 + readU16BE b 2)
  else false

/-- Header size and length field of a GT06 frame as read by
`GT06Decoder.decode` (gt06.decoder.ts lines 98-110): short frames have a
3-byte header with a 1-byte length, long frames a 4-byte header with a
2-byte length. -/
def gt06DecoderHeader (b : List Nat) : Nat × Nat :=
  if byteAt b 0 = 0x78 then (3, byteAt b 2) else (4, readU16BE b 2)

/-- The checksum gate of `GT06Decoder.decode` (gt06.decoder.ts lines
114-149): the expected 16-bit value at `headerSize + length - 2` must equal
the CRC over `[2, crcPosition)`, or, failing that, the additive 16-bit
checksum over the same range. -/
def gt06DecoderChecksumOk (b : List Nat) : Bool :=
  let h := gt06DecoderHeader b
  let crcPosition := h.1 + h.2 - 2
  let expectedCrc := readU16BE b crcPosition
  if expectedCrc = calculateCrc16 b 2 crcPosition then true
  else decide (expectedCrc = additiveChecksum b 2 crcPosition)

/-- Location fields decoded by `GT06Decoder.decodeLocationPacket`
(gt06.decoder.ts lines 252-350).  In this path bit 10 set means North and
the latitude is negated when the bit is clear. -/
def gt06DecoderDecodeLocation (b : List Nat) (headerSize length : Nat) : GT06Loc :=
  let dataOffset := headerSize + 1
  let year := 2000 + byteAt b dataOffset
  let month := byteAt b (dataOffset + 1)
  let day := byteAt b (dataOffset + 2)
  let hour := byteAt b (dataOffset + 3)
  let minute := byteAt b (dataOffset + 4)
  let second := byteAt b (dataOffset + 5)
  let gpsLength := byteAt b (dataOffset + 6)
  let satelliteCount := gpsLength &&& 0x0f
  let latitudeRaw := readU32BE b (dataOffset + 7)
  let longitudeRaw := readU32BE b (dataOffset + 11)
  let speed := byteAt b (dataOffset + 15)
  let courseStatus := readU16BE b (dataOffset + 16)
  let course := courseStatus &&& 0x03ff
  let gpsRealtime := courseStatus &&& 0x2000 ≠ 0
  let gpsPositioned := courseStatus &&& 0x1000 ≠ 0
  let eastWest := courseStatus &&& 0x0800 ≠ 0
  let northSouth := courseStatus &&& 0x0400 ≠ 0
  let latitude : ℚ :=
    if northSouth then (latitudeRaw : ℚ) / 1800000 else -((latitudeRaw : ℚ) / 1800000)
  let longitude : ℚ :=
    if eastWest then -((longitudeRaw : ℚ) / 1800000) else (longitudeRaw : ℚ) / 1800000
  let mcc := readU16BE b (dataOffset + 18)
  let mnc := byteAt b (dataOffset + 20)
  let lac := readU16BE b (dataOffset + 21)
  let cellId := readU32BE b (dataOffset + 23) >>> 8
  let acc :=
    if length > 25 ∧ b.length > dataOffset + 24 then byteAt b (dataOffset + 24) &&& 0x01 ≠ 0
    else false
  { gpsLength, satelliteCount, latitude, longitude, speed, course,
    year, month, day, hour, minute, second, mcc, mnc, lac, cellId, acc,
    gpsFixed := gpsPositioned, gpsRealtime }

/-- `GT06Decoder.parseLocationInfo` (gt06.decoder.ts lines 404-452), the
location parser used by the alarm decode path.  Faithful to the source:
here bit 10 set selects hemisphere `'S'` and the latitude is negated when
the bit is SET. -/
def gt06DecoderParseLocationInfo (b : List Nat) (offset : Nat) : GT06Loc :=
  let gpsInfoLength := byteAt b offset
  let satelliteCount := gpsInfoLength &&& 0x0f
  let year := 2000 + byteAt b (offset + 1)
  let month := byteAt b (offset + 2)
  let day := byteAt b (offset + 3)
  let hour := byteAt b (offset + 4)
  let minute := byteAt b (offset + 5)
  let second := byteAt b (offset + 6)
  let latitude0 : ℚ := (readU32BE b (offset + 7) : ℚ) / 1800000
  let longitude0 : ℚ := (readU32BE b (offset + 11) : ℚ) / 1800000
  let speed := byteAt b (offset + 15)
  let courseStatus := readU16BE b (offset + 16)
  let course := courseStatus &&& 0x03ff
  let gpsFixed := courseStatus &&& 0x1000 ≠ 0
  let latHemisphereSouth := courseStatus &&& 0x0400 ≠ 0
  let lonHemisphereWest := courseStatus &&& 0x0800 ≠ 0
  let mcc := readU16BE b (offset + 18)
  let mnc := byteAt b (offset + 20)
  let lac := readU16BE b (offset + 21)
  let cellId := readU32BE b (offset + 23) &&& 0xffffff
  let acc := byteAt b (offset + 26) &&& 0x01 ≠ 0
  { gpsLength := gpsInfoLength, satelliteCount,
    latitude := if latHemisphereSouth then -latitude0 else latitude0,
    longitude := if lonHemisphereWest then -longitude0 else longitude0,
    speed, course, year, month, day, hour, minute, second, mcc, mnc, lac,
    cellId, acc, gpsFixed, gpsRealtime := false }

/-- A decoded packet of the standalone `GT06Decoder` (payloads beyond the
location and serial are kept at the granularity the claims need). -/
structure GT06DecoderPacket where
  ptype : PacketType
  imei : Option String
  requiresAck : Bool
  serial : Nat
  location : Option GT06Loc
  deriving DecidableEq, Repr

/-- `GT06Decoder.decode` (gt06.decoder.ts lines 85-192): completeness
check, checksum gate with additive fallback (both failing → `null`), then
dispatch on the message type.  `decodeAlarmPacket` (lines 355-376) uses
`parseLocationInfo`. -/
def gt06DecoderDecode (b : List Nat) (socketImei : Option String) : Option GT06DecoderPacket :=
  if ¬ gt06DecoderHasCompletePacket b then none
  else
    let h := gt06DecoderHeader b
    let headerSize := h.1
    let length := h.2
    let messageType := byteAt b headerSize
    if ¬ gt06DecoderChecksumOk b then none
    else
      let serialPosition := headerSize + length - 4
      let serial := readU16BE b serialPosition
      let socketImeiStr := socketImei.getD ""
      if messageType = 0x01 then
        some { ptype := PacketType.LOGIN,
               imei := some (decoderParseImei (bufSlice b (headerSize + 1) (headerSize + 1 + 8))),
               requiresAck := true, serial := serial, location := none }
      else if messageType = 0x13 then
        some { ptype := PacketType.HEARTBEAT, imei := none,
               requiresAck := true, serial := serial, location := none }
      else if messageType = 0x12 ∨ messageType = 0x22 then
        some { ptype := PacketType.LOCATION, imei := some socketImeiStr,
               requiresAck := true, serial := serial,
               location := some (gt06DecoderDecodeLocation b headerSize length) }
      else if messageType = 0x16 ∨ messageType = 0x26 then
        some { ptype := PacketType.ALARM, imei := some socketImeiStr,
               requiresAck := true, serial := serial,
               location := some (gt06DecoderParseLocationInfo b (headerSize + 1)) }
      else
        some { ptype := PacketType.UNKNOWN, imei := none,
               requiresAck := false, serial := 0, location := none }

/-! ## GT06 record transformation and connection processing -/

/-- `LocationData` of a GT06 `DeviceData` (decoder.interface.ts), as
filled by `GT06Service.transformToDeviceData`. -/
structure LocationDataG where
  latitude : ℚ
  longitude : ℚ
  altitude : Nat
  speed : Nat
  course : Nat
  satellites : Nat
  valid : Bool
  deriving DecidableEq, Repr

/-- The `DeviceData` fields of `GT06Service.transformToDeviceData` that the
claims observe (`imei`, `packetType`, `location`, `sensors.acc`,
`sensors.serialNumber`). -/
structure DeviceDataG where
  imei : String
  packetType : PacketType
  location : Option LocationDataG
  acc : Option Bool
  serial : Nat
  deriving DecidableEq, Repr

/-- `GT06Service.transformToDeviceData` (process.gt06.ts lines 501-561).
JS falsiness of `packet.imei` covers both the absent and the empty
string. -/
def gt06TransformToDeviceData (p : GT06Packet) : Option DeviceDataG :=
  if p.imei.getD "" = "" ∧ p.ptype ≠ PacketType.LOCATION ∧ p.ptype ≠ PacketType.ALARM then
    none
  else
    let imei := if p.imei.getD "" = "" then "unknown" else p.imei.getD ""
    let base : DeviceDataG :=
      { imei := imei, packetType := p.ptype, location := none, acc := none, serial := p.serial }
    match p.payload with
    | GT06Payload.location info valid =>
        some { base with
               location := some { latitude := info.latitude, longitude := info.longitude,
                                  altitude := 0, speed := info.speed, course := info.course,
                                  satellites := info.satelliteCount, valid := valid },
               acc := some info.acc }
    | GT06Payload.alarm info valid =>
        some { base with
               location := some { latitude := info.latitude, longitude := info.longitude,
                                  altitude := 0, speed := info.speed, course := info.course,
                                  satellites := info.satelliteCount, valid := valid },
               acc := some info.acc }
    | _ => some base

/-- A pending downlink command: one row of `command_queue` mirrored as one
Redis list entry `{id, command}` (part_011 `getDeviceCommands`). -/
structure CmdEntry where
  id : Nat
  command : List Nat
  deriving DecidableEq, Repr

/-- The observable state of one GT06 connection: the socket metadata
(part_007 `socket.meta`), whether `socket.destroy()` ran, every buffer
written to the socket in order, the device records handed to
`DataForwarderService.forwardData`, and the per-IMEI command stores. -/
structure Gt06ConnState where
  metaImei : Option String
  isAuthorized : Bool
  destroyed : Bool
  written : List (List Nat)
  forwarded : List DeviceDataG
  redisQueue : List CmdEntry
  sqlRows : List CmdEntry
  deriving DecidableEq, Repr

/-- Redis `LREM key 1 value`: drop the first entry with the given id
(part_011 `removeDeviceCommand`, lines 121-134). -/
def lremFirstById : List CmdEntry → Nat → List CmdEntry
  | [], _ => []
  | c :: cs, i => if c.id = i then cs else c :: lremFirstById cs i

/-- `prisma.commandQueue.delete({where: {id}})` on the mirrored rows. -/
def sqlDeleteById (rows : List CmdEntry) (i : Nat) : List CmdEntry :=
  rows.filter (fun r => r.id ≠ i)

/-- The per-frame body of `TcpServerService.handleData` (part_007 lines
200-227): decode, bind `socket.meta.imei` when the packet carries a
(JS-truthy) IMEI, transform to device data, write the ACK. -/
def gt06HandleFrame (st : Gt06ConnState) (frame : List Nat) :
    Gt06ConnState × Option DeviceDataG :=
  let p := gt06ServiceDecode frame st.metaImei
  let st := if p.imei.getD "" ≠ "" then { st with metaImei := p.imei } else st
  let dd := gt06TransformToDeviceData p
  let st := if p.requiresAck then { st with written := st.written ++ [gt06GenerateAck p] } else st
  (st, dd)

/-- All frames of one `data` event, accumulating the `deviceData` array
`handleData` returns. -/
def gt06HandleFrames (st : Gt06ConnState) : List (List Nat) → Gt06ConnState × List DeviceDataG
  | [] => (st, [])
  | f :: fs =>
    let r := gt06HandleFrame st f
    let rest := gt06HandleFrames r.1 fs
    (rest.1, (match r.2 with | some d => [d] | none => []) ++ rest.2)

/-- The command-drain loop of `GT06Service.processData` (process.gt06.ts
lines 594-600): for each snapshotted entry, `sendCommand` (whose boolean
result — `writeOk` of the written buffer — is discarded) followed
unconditionally by `removeDeviceCommand` (Redis LREM plus SQL delete). -/
def gt06DrainCommands (writeOk : List Nat → Bool) (st : Gt06ConnState) :
    List CmdEntry → Gt06ConnState
  | [] => st
  | c :: cs =>
    let buf := gt06EncodeCommand c.command 1
    let _ := writeOk buf
    let st := { st with written := st.written ++ [buf],
                        redisQueue := lremFirstById st.redisQueue c.id,
                        sqlRows := sqlDeleteById st.sqlRows c.id }
    gt06DrainCommands writeOk st cs

/-- `GT06Service.processData` (process.gt06.ts lines 567-648) over the
`deviceData` array: on LOGIN validate against the allow-list (`destroy` and
return on a miss), bind the IMEI, authorise, drain all pending commands;
forward LOCATION records of authorised connections; HEARTBEAT only updates
live status. -/
def gt06ProcessDeviceData (allow : String → Bool) (writeOk : List Nat → Bool)
    (st : Gt06ConnState) : List DeviceDataG → Gt06ConnState
  | [] => st
  | d :: ds =>
    if d.packetType = PacketType.LOGIN then
      if ¬ allow d.imei then { st with destroyed := true }
      else
        let st := { st with metaImei := some d.imei, isAuthorized := true }
        let st := gt06DrainCommands writeOk st st.redisQueue
        gt06ProcessDeviceData allow writeOk st ds
    else if d.packetType = PacketType.LOCATION ∧ st.isAuthorized then
      gt06ProcessDeviceData allow writeOk { st with forwarded := st.forwarded ++ [d] } ds
    else
      gt06ProcessDeviceData allow writeOk st ds

/-- One `data` event on a GT06 connection end to end: reassemble, run
`handleData`'s per-frame work, then `processData` when at least one packet
was decoded.  Returns the new state and the leftover buffer. -/
def gt06OnData (allow : String → Bool) (writeOk : List Nat → Bool)
    (st : Gt06ConnState) (buf data : List Nat) : Gt06ConnState × List Nat :=
  let d := drain gt06Framing (buf ++ data)
  let h := gt06HandleFrames st d.1
  let st2 := if d.1.length > 0 then gt06ProcessDeviceData allow writeOk h.1 h.2 else h.1
  (st2, d.2)

/-! ## Teltonika decoder and connection processing -/

/-- `buffer.readBigUInt64BE(i)`. -/
def readU64BE (b : List Nat) (i : Nat) : Nat :=
  (List.range 8).foldl (fun a k => a * 256 + byteAt b (i + k)) 0

/-- `buffer.readInt32BE(i)`: two's-complement of the unsigned read. -/
def readI32BE (b : List Nat) (i : Nat) : Int :=
  if readU32BE b i ≥ 2 ^ 31 then (readU32BE b i : Int) - 2 ^ 32 else (readU32BE b i : Int)

/-- `buffer.readInt16BE(i)`. -/
def readI16BE (b : List Nat) (i : Nat) : Int :=
  if readU16BE b i ≥ 2 ^ 15 then (readU16BE b i : Int) - 2 ^ 16 else (readU16BE b i : Int)

/-- One `TeltonikaAVLRecord` (teltonika.types.ts) as parsed by
`TeltonikaService.parseAvlRecord`. -/
structure TAvlRecord where
  timestampMs : Nat
  priority : Nat
  longitude : ℚ
  latitude : ℚ
  altitude : Int
  angle : Nat
  satellites : Nat
  speed : Nat
  eventId : Nat
  totalIoCount : Nat
  ioElements : List (Nat × Nat)
  deriving DecidableEq, Repr

/-- One size-group of `TeltonikaService.parseIoElements` (teltonika.
service.ts lines 286-338): `count` pairs of 1-byte id and a value of the
group's width. -/
def parseIoGroup (b : List Nat) (valSize : Nat) : Nat → Nat → List (Nat × Nat) × Nat
  | 0, off => ([], off)
  | n + 1, off =>
    let ioId := byteAt b off
    let value :=
      match valSize with
      | 1 => byteAt b (off + 1)
      | 2 => readU16BE b (off + 1)
      | 4 => readU32BE b (off + 1)
      | _ => readU64BE b (off + 1)
    let r := parseIoGroup b valSize n (off + 1 + valSize)
    ((ioId, value) :: r.1, r.2)

/-- `TeltonikaService.parseIoElements`: the four groups in order. -/
def parseIoElements (b : List Nat) (off : Nat) : List (Nat × Nat) × Nat :=
  let g1 := parseIoGroup b 1 (byteAt b off) (off + 1)
  let g2 := parseIoGroup b 2 (byteAt b g1.2) (g1.2 + 1)
  let g4 := parseIoGroup b 4 (byteAt b g2.2) (g2.2 + 1)
  let g8 := parseIoGroup b 8 (byteAt b g4.2) (g4.2 + 1)
  (g1.1 ++ g2.1 ++ g4.1 ++ g8.1, g8.2)

/-- `TeltonikaService.parseAvlRecord` (teltonika.service.ts lines
203-281): GPS block then IO block (IO parsed for codec 8 / 8E only). -/
def parseAvlRecord (b : List Nat) (off : Nat) (codecId : Nat) : TAvlRecord × Nat :=
  let io :=
    if codecId = 0x08 ∨ codecId = 0x8e then parseIoElements b (off + 26)
    else ([], off + 26)
  ({ timestampMs := readU64BE b off
     priority := byteAt b (off + 8)
     longitude := (readI32BE b (off + 9) : ℚ) / 10000000
     latitude := (readI32BE b (off + 13) : ℚ) / 10000000
     altitude := readI16BE b (off + 17)
     angle := readU16BE b (off + 19)
     satellites := byteAt b (off + 21)
     speed := readU16BE b (off + 22)
     eventId := byteAt b (off + 24)
     totalIoCount := byteAt b (off + 25)
     ioElements := io.1 }, io.2)

/-- The record loop of `TeltonikaService.decodeAvlPacket` starting at
offset 10 (after preamble, data length, codec id and record count). -/
def teltonikaParseRecords (b : List Nat) (codecId : Nat) :
    Nat → Nat → List TAvlRecord × Nat
  | 0, off => ([], off)
  | n + 1, off =>
    let r := parseAvlRecord b off codecId
    let rest := teltonikaParseRecords b codecId n r.2
    (r.1 :: rest.1, rest.2)

/-- A Teltonika `DecodedPacket` (IMEI handshake or AVL data). -/
structure TPacket where
  ptype : PacketType
  imei : Option String
  requiresAck : Bool
  codecId : Nat
  recordCount : Nat
  records : List TAvlRecord
  deriving DecidableEq, Repr

/-- ASCII bytes to string (`buffer.toString('utf8')` on digit bytes). -/
def bytesToAscii (bs : List Nat) : String :=
  String.mk (bs.map Char.ofNat)

/-- `TeltonikaService.decodeImeiPacket` (teltonika.service.ts lines
103-119). -/
def teltonikaDecodeImeiPacket (b : List Nat) : TPacket :=
  { ptype := PacketType.LOGIN,
    imei := some (bytesToAscii (bufSlice b 2 (2 + readU16BE b 0))),
    requiresAck := true, codecId := 0, recordCount := 0, records := [] }

/-- `TeltonikaService.decodeAvlPacket` (teltonika.service.ts lines
124-198).  The CRC comparison it performs only feeds a log line; the
packet is returned either way (`teltonikaCrcMatches` below embeds the
comparison itself). -/
def teltonikaDecodeAvlPacket (b : List Nat) (metaImei : Option String) : Option TPacket :=
  if readU32BE b 0 ≠ 0 then none
  else
    let codecId := byteAt b 8
    let recordCount := byteAt b 9
    let w := teltonikaParseRecords b codecId recordCount 10
    some { ptype := if w.1.length = 0 then PacketType.HEARTBEAT else PacketType.LOCATION,
           imei := metaImei, requiresAck := true,
           codecId := codecId, recordCount := recordCount, records := w.1 }

/-- `TeltonikaService.decode` (teltonika.service.ts lines 84-98). -/
def teltonikaDecode (b : List Nat) (metaImei : Option String) : Option TPacket :=
  if readU16BE b 0 = 15 then some (teltonikaDecodeImeiPacket b)
  else teltonikaDecodeAvlPacket b metaImei

/-- The position of the 4-byte CRC field: one past the trailing record
count, exactly as `decodeAvlPacket`'s running `offset` computes it. -/
def teltonikaAvlCrcPosition (b : List Nat) : Nat :=
  (teltonikaParseRecords b (byteAt b 8) (byteAt b 9) 10).2 + 1

/-- The CRC comparison of `decodeAvlPacket` (teltonika.service.ts lines
166-174): the full 4-byte field against `calculateCrc16(buffer, 8,
offset - 4)` — the shared CRC-CCITT routine. -/
def teltonikaCrcMatches (b : List Nat) : Bool :=
  decide (readU32BE b (teltonikaAvlCrcPosition b) =
    calculateCrc16 b 8 (teltonikaAvlCrcPosition b))

/-- The CRC check as the specification words it (spec.md §4.2.2 / claim
C6): CRC-16/IBM over codec id through trailing record count, compared with
the low 16 bits of the 4-byte CRC field.  For comparison with
`teltonikaCrcMatches`. -/
def specTeltonikaCrcCheck (b : List Nat) : Bool :=
  decide (readU32BE b (teltonikaAvlCrcPosition b) &&& 0xffff =
    crc16Ibm b 8 (teltonikaAvlCrcPosition b))

/-- Big-endian 4-byte encoding (`writeUInt32BE`). -/
def u32ToBytes (n : Nat) : List Nat :=
  [(n >>> 24) &&& 0xff, (n >>> 16) &&& 0xff, (n >>> 8) &&& 0xff, n &&& 0xff]

/-- `TeltonikaService.generateAck` (teltonika.service.ts lines 343-367):
the single byte `0x01` for the IMEI handshake — the accept byte,
unconditionally — and the 4-byte record count for AVL frames. -/
def teltonikaGenerateAck (p : TPacket) : List Nat :=
  if p.ptype = PacketType.LOGIN then [0x01]
  else u32ToBytes p.recordCount

/-- Teltonika `LocationData`. -/
structure LocationDataT where
  latitude : ℚ
  longitude : ℚ
  altitude : Int
  speed : Nat
  course : Nat
  satellites : Nat
  valid : Bool
  deriving DecidableEq, Repr

/-- Teltonika `DeviceData` projection. -/
structure TDeviceData where
  imei : String
  packetType : PacketType
  location : Option LocationDataT
  deriving DecidableEq, Repr

/-- `TeltonikaService.transformToDeviceData` (teltonika.service.ts lines
372-415): first record of the batch; `valid` is
`isValidCoordinate(latitude, longitude)` alone — no fix flag exists in the
decoded record. -/
def teltonikaTransformToDeviceData (p : TPacket) : Option TDeviceData :=
  if p.imei.getD "" = "" then none
  else
    let base : TDeviceData := { imei := p.imei.getD "", packetType := p.ptype, location := none }
    if p.ptype = PacketType.LOCATION then
      match p.records with
      | [] => some base
      | r :: _ =>
        some { base with
               location := some { latitude := r.latitude, longitude := r.longitude,
                                  altitude := r.altitude, speed := r.speed,
                                  course := r.angle, satellites := r.satellites,
                                  valid := isValidCoordinate r.latitude r.longitude } }
    else some base

/-- Observable state of one Teltonika connection.  `destroyed` is carried
to state the closing behaviour: neither `handleData` nor
`TeltonikaService.processData` (which only logs) ever destroys the
socket. -/
structure TeltonikaConnState where
  metaImei : Option String
  destroyed : Bool
  written : List (List Nat)
  forwarded : List TDeviceData
  deriving DecidableEq, Repr

/-- `handleData`'s per-frame work on the Teltonika port (part_007 lines
200-227); `TeltonikaService.processData` adds nothing observable. -/
def teltonikaHandleFrame (st : TeltonikaConnState) (frame : List Nat) : TeltonikaConnState :=
  match teltonikaDecode frame st.metaImei with
  | none => st
  | some p =>
    let st := if p.imei.getD "" ≠ "" then { st with metaImei := p.imei } else st
    if p.requiresAck then { st with written := st.written ++ [teltonikaGenerateAck p] } else st

/-- One `data` event on a Teltonika connection. -/
def teltonikaOnData (st : TeltonikaConnState) (buf data : List Nat) :
    TeltonikaConnState × List Nat :=
  let d := drain teltonikaFraming (buf ++ data)
  (d.1.foldl teltonikaHandleFrame st, d.2)

/-! ## Admin API (BearerAuthGuard and ApiService.SendCommand) -/

/-- JS `String.split(' ')` on a character list: split at every single
space, keeping empty segments. -/
def splitSpaceChars : List Char → List Char → List String
  | [], acc => [String.mk acc.reverse]
  | c :: cs, acc =>
    if c = ' ' then String.mk acc.reverse :: splitSpaceChars cs []
    else splitSpaceChars cs (c :: acc)

/-- JS `authHeader.split(' ')`. -/
def jsSplitSpace (s : String) : List String :=
  splitSpaceChars s.toList []

/-- JS `String.toLowerCase()` on the ASCII range. -/
def jsToLowerCase (s : String) : String :=
  String.mk (s.toList.map Char.toLower)

/-- `BearerAuthGuard.canActivate` (protocol.factory.ts lines 179-198):
missing header, non-bearer type, or missing/mismatching token each throw
`UnauthorizedException` (modelled as `Except.error` with the source's
message); NestJS then returns 401 before the controller runs. -/
def canActivate (authHeader : Option String) (secretKey : String) : Except String Bool :=
  match authHeader with
  | none => Except.error "Authorization header is missing"
  | some h =>
    let parts := jsSplitSpace h
    if jsToLowerCase (parts.getD 0 "") ≠ "bearer" then
      Except.error "Invalid authorization type. Expected Bearer token"
    else
      match parts.get? 1 with
      | none => Except.error "Unauthorized"
      | some t => if t = "" ∨ t ≠ secretKey then Except.error "Unauthorized" else Except.ok true

/-- `ApiService.SendCommand` (api.service.ts lines 80-104) after the
guard: attempt immediate dispatch (`sent`), and create the SQL
`commandQueue` row only in the `!sent` branch.  Returns whether a row was
created and the response message. -/
def apiSendCommand (sent : Bool) : Bool × String :=
  if ¬ sent then (true, "Device offline. Command queued.")
  else (false, "Command sent successfully.")

/-! ## Standalone GT06 path (src/utils/common.ts and processGt06) -/

/-- `validateImei` from src/utils/common.ts lines 13-27: the database
lookup is commented out and the function returns `true` for every
input. -/
def validateImei (imei : String) : Bool :=
  true

/-- Socket metadata of the standalone path. -/
structure StandaloneMeta where
  imei : Option String
  isAuthorized : Bool
  destroyed : Bool
  deriving DecidableEq, Repr

/-- `processGt06` (process.gt06.ts lines 12-43 with `updatesocketMeta`,
lines 46-56): on a LOGIN packet, destroy when `validateImei` fails,
otherwise bind the first device-data IMEI and set `isAuthorized`. -/
def processGt06 (meta : StandaloneMeta) (packetTypes : List PacketType)
    (firstDeviceImei : Option String) : StandaloneMeta :=
  if packetTypes.contains PacketType.LOGIN then
    if ¬ validateImei (firstDeviceImei.getD "") then { meta with destroyed := true }
    else { meta with imei := firstDeviceImei, isAuthorized := true }
  else meta

/-! ### Facts about the framings used by the reassembly loop -/

/-- The conditions `handleData`'s loop relies on: a complete packet stays
complete when more bytes arrive, its length does not change, and it is a
nonempty prefix of the buffer. -/
def FramingOk (F : Framing) : Prop :=
  (∀ b e, F.hasComplete b = true → F.hasComplete (b ++ e) = true) ∧
  (∀ b e, F.hasComplete b = true → F.getLen (b ++ e) = F.getLen b) ∧
  (∀ b, F.hasComplete b = true → 0 < F.getLen b ∧ F.getLen b ≤ b.length)

theorem byteAt_append (b e : List Nat) (i : Nat) (h : i < b.length) :
    byteAt (b ++ e) i = byteAt b i := by
  simp only [byteAt, List.getD]
  rw [List.get?_eq_getElem?, List.get?_eq_getElem?, List.getElem?_append_left h]

theorem readU16BE_append (b e : List Nat) (i : Nat) (h : i + 1 < b.length) :
    readU16BE (b ++ e) i = readU16BE b i := by
  have h0 : i < b.length := by omega
  simp [readU16BE, byteAt_append _ _ _ h0, byteAt_append _ _ _ h]

theorem readU32BE_append (b e : List Nat) (i : Nat) (h : i + 3 < b.length) :
    readU32BE (b ++ e) i = readU32BE b i := by
  have h0 : i < b.length := by omega
  have h1 : i + 1 < b.length := by omega
  have h2 : i + 2 < b.length := by omega
  simp [readU32BE, byteAt_append _ _ _ h0, byteAt_append _ _ _ h1,
    byteAt_append _ _ _ h2, byteAt_append _ _ _ h]

theorem gt06_complete_facts (b : List Nat) (hb : gt06HasCompletePacket b = true) :
    ¬ b.length < 10 ∧
    ¬ (readU16BE b 0 ≠ GT06_START_BIT ∧ readU16BE b 0 ≠ GT06_START_BIT_LONG) ∧
    gt06GetPacketLength b > 0 ∧ b.length ≥ gt06GetPacketLength b := by
  unfold gt06HasCompletePacket at hb
  split_ifs at hb with h1 h2
  exact ⟨h1, h2, of_decide_eq_true hb⟩

theorem gt06GetPacketLength_append (b e : List Nat) (h10 : ¬ b.length < 10) :
    gt06GetPacketLength (b ++ e) = gt06GetPacketLength b := by
  unfold gt06GetPacketLength
  have hbe3 : ¬ (b ++ e).length < 3 := by simp; omega
  have hbe4 : ¬ (b ++ e).length < 4 := by simp; omega
  rw [if_neg hbe3, if_neg (show ¬ b.length < 3 by omega),
    readU16BE_append b e 0 (by omega), readU16BE_append b e 2 (by omega),
    byteAt_append b e 2 (by omega), if_neg hbe4, if_neg (show ¬ b.length < 4 by omega)]

theorem gt06HasCompletePacket_append (b e : List Nat) (hb : gt06HasCompletePacket b = true) :
    gt06HasCompletePacket (b ++ e) = true := by
  obtain ⟨h10, hstart, hpos, hle⟩ := gt06_complete_facts b hb
  unfold gt06HasCompletePacket
  rw [if_neg (show ¬ (b ++ e).length < 10 by simp; omega),
    readU16BE_append b e 0 (by omega), if_neg hstart,
    gt06GetPacketLength_append b e h10]
  refine decide_eq_true ⟨hpos, ?_⟩
  simp
  omega

theorem gt06FramingOk : FramingOk gt06Framing :=
  ⟨gt06HasCompletePacket_append,
   fun b e hb => gt06GetPacketLength_append b e (gt06_complete_facts b hb).1,
   fun b hb => (gt06_complete_facts b hb).2.2⟩

/-- Case analysis of a complete Teltonika buffer: either the IMEI
handshake frame (first two bytes encode 15, length 17) or an AVL frame
(zero preamble, length from the 4-byte data-length field). -/
theorem teltonika_complete_cases (b : List Nat) (hb : teltonikaHasCompletePacket b = true) :
    (readU16BE b 0 = 15 ∧ b.length ≥ 17 ∧ teltonikaGetPacketLength b = 17) ∨
    (readU16BE b 0 ≠ 15 ∧ ¬ b.length < 8 ∧ readU32BE b 0 = 0 ∧
      teltonikaGetPacketLength b = 8 + readU32BE b 4 + 4 ∧
      b.length ≥ teltonikaGetPacketLength b) := by
  unfold teltonikaHasCompletePacket at hb
  split_ifs at hb with h1 h2 h3
  · refine Or.inl ⟨h2.1, h2.2, ?_⟩
    unfold teltonikaGetPacketLength
    rw [if_neg h1, if_pos h2.1]
  · have hlen := of_decide_eq_true hb
    have h15 : readU16BE b 0 ≠ 15 := by
      intro h15
      have h17 : teltonikaGetPacketLength b = 17 := by
        unfold teltonikaGetPacketLength
        rw [if_neg h1, if_pos h15]
      rw [h17] at hlen
      exact h2 ⟨h15, hlen.2⟩
    have hgl : teltonikaGetPacketLength b =
        (if readU32BE b 0 ≠ 0 then 0 else 8 + readU32BE b 4 + 4) := by
      unfold teltonikaGetPacketLength
      rw [if_neg h1, if_neg h15, if_neg h3]
    have hpre : readU32BE b 0 = 0 := by
      by_contra hne
      rw [if_pos hne] at hgl
      omega
    rw [if_neg (by simp [hpre])] at hgl
    exact Or.inr ⟨h15, h3, hpre, hgl, hlen.2⟩

theorem teltonikaGetPacketLength_append (b e : List Nat)
    (hb : teltonikaHasCompletePacket b = true) :
    teltonikaGetPacketLength (b ++ e) = teltonikaGetPacketLength b := by
  rcases teltonika_complete_cases b hb with ⟨h15, h17, hgl⟩ | ⟨h15, h8, hpre, hgl, _⟩
  · have hr : readU16BE (b ++ e) 0 = readU16BE b 0 := readU16BE_append b e 0 (by omega)
    have hbe : teltonikaGetPacketLength (b ++ e) = 17 := by
      unfold teltonikaGetPacketLength
      rw [if_neg (show ¬ (b ++ e).length < 2 by simp; omega), hr, if_pos h15]
    rw [hbe, hgl]
  · have hr0 : readU16BE (b ++ e) 0 = readU16BE b 0 := readU16BE_append b e 0 (by omega)
    have hr32 : readU32BE (b ++ e) 0 = readU32BE b 0 := readU32BE_append b e 0 (by omega)
    have hr4 : readU32BE (b ++ e) 4 = readU32BE b 4 := readU32BE_append b e 4 (by omega)
    have hbe : teltonikaGetPacketLength (b ++ e) = 8 + readU32BE b 4 + 4 := by
      unfold teltonikaGetPacketLength
      rw [if_neg (show ¬ (b ++ e).length < 2 by simp; omega), hr0, if_neg h15,
        if_neg (show ¬ (b ++ e).length < 8 by simp; omega), hr32,
        if_neg (by simp [hpre]), hr4]
    rw [hbe, hgl]

theorem teltonikaHasCompletePacket_append (b e : List Nat)
    (hb : teltonikaHasCompletePacket b = true) :
    teltonikaHasCompletePacket (b ++ e) = true := by
  have hgl := teltonikaGetPacketLength_append b e hb
  rcases teltonika_complete_cases b hb with ⟨h15, h17, _⟩ | ⟨h15, h8, hpre, hglb, hlenb⟩
  · have hr : readU16BE (b ++ e) 0 = readU16BE b 0 := readU16BE_append b e 0 (by omega)
    unfold teltonikaHasCompletePacket
    rw [if_neg (show ¬ (b ++ e).length < 2 by simp; omega),
      if_pos (show _ ∧ _ by rw [hr]; exact ⟨h15, by simp; omega⟩)]
  · have hr : readU16BE (b ++ e) 0 = readU16BE b 0 := readU16BE_append b e 0 (by omega)
    unfold teltonikaHasCompletePacket
    rw [if_neg (show ¬ (b ++ e).length < 2 by simp; omega),
      if_neg (show ¬ (_ ∧ _) by rw [hr]; exact fun h => h15 h.1),
      if_neg (show ¬ (b ++ e).length < 8 by simp; omega)]
    refine decide_eq_true ?_
    rw [hgl, hglb]
    refine ⟨by omega, ?_⟩
    have : (b ++ e).length = b.length + e.length := by simp
    omega

theorem teltonikaFramingOk : FramingOk teltonikaFraming := by
  refine ⟨teltonikaHasCompletePacket_append, teltonikaGetPacketLength_append, ?_⟩
  intro b hb
  rcases teltonika_complete_cases b hb with ⟨_, h17, hgl⟩ | ⟨_, _, _, hgl, hlenb⟩
  · show 0 < teltonikaGetPacketLength b ∧ teltonikaGetPacketLength b ≤ b.length
    rw [hgl]
    exact ⟨by omega, h17⟩
  · show 0 < teltonikaGetPacketLength b ∧ teltonikaGetPacketLength b ≤ b.length
    rw [hgl] at hlenb ⊢
    exact ⟨by omega, hlenb⟩

/-! ### The reassembly loop is invariant under TCP segmentation -/

theorem drainGo_fuel_irrelevant (F : Framing) (hF : FramingOk F) :
    ∀ k b n m, b.length ≤ k → b.length ≤ n → b.length ≤ m →
      drainGo F n b = drainGo F m b := by
  intro k
  induction k with
  | zero =>
    intro b n m hk _ _
    have hb : b = [] := List.length_eq_zero.mp (by omega)
    subst hb
    have hc : F.hasComplete [] = false := by
      by_contra h
      have := (hF.2.2 [] (by simpa using h)).2
      have := (hF.2.2 [] (by simpa using h)).1
      simp at this ⊢
      omega
    cases n <;> cases m <;> simp [drainGo, hc]
  | succ k ih =>
    intro b n m hk hn hm
    by_cases hc : F.hasComplete b = true
    · obtain ⟨hpos, hle⟩ := hF.2.2 b hc
      have hbpos : 0 < b.length := by omega
      cases n with
      | zero => omega
      | succ n =>
        cases m with
        | zero => omega
        | succ m =>
          simp only [drainGo, hc, if_true, if_neg (by omega : ¬ F.getLen b = 0)]
          have hdrop : (b.drop (F.getLen b)).length ≤ k := by
            simp
            omega
          rw [ih (b.drop (F.getLen b)) n m hdrop (by simp; omega) (by simp; omega)]
    · have hc' : F.hasComplete b = false := by simpa using hc
      cases n <;> cases m <;> simp [drainGo, hc']

theorem drain_unfold (F : Framing) (hF : FramingOk F) (b : List Nat) :
    drain F b =
      if F.hasComplete b = true then
        (b.take (F.getLen b) :: (drain F (b.drop (F.getLen b))).1,
          (drain F (b.drop (F.getLen b))).2)
      else ([], b) := by
  by_cases hc : F.hasComplete b = true
  · obtain ⟨hpos, hle⟩ := hF.2.2 b hc
    rw [if_pos hc]
    unfold drain
    cases hl : b.length with
    | zero => omega
    | succ l =>
      simp only [drainGo, hc, if_true, if_neg (by omega : ¬ F.getLen b = 0)]
      have : drainGo F l (b.drop (F.getLen b)) = drainGo F (b.drop (F.getLen b)).length
          (b.drop (F.getLen b)) :=
        drainGo_fuel_irrelevant F hF (b.drop (F.getLen b)).length _ _ _
          le_rfl (by simp; omega) le_rfl
      rw [this]
  · rw [if_neg hc]
    have hc' : F.hasComplete b = false := by simpa using hc
    unfold drain
    cases hl : b.length <;> simp [drainGo, hc']

theorem drain_remainder_stable (F : Framing) (hF : FramingOk F) :
    ∀ k b, b.length ≤ k → drain F ((drain F b).2) = ([], (drain F b).2) := by
  intro k
  induction k with
  | zero =>
    intro b hk
    have hb : b = [] := List.length_eq_zero.mp (by omega)
    subst hb
    have h0 : drain F [] = ([], []) := by simp [drain, drainGo]
    rw [h0, h0]
  | succ k ih =>
    intro b hk
    rw [drain_unfold F hF b]
    by_cases hc : F.hasComplete b = true
    · obtain ⟨hpos, hle⟩ := hF.2.2 b hc
      rw [if_pos hc]
      exact ih (b.drop (F.getLen b)) (by simp; omega)
    · rw [if_neg hc]
      show drain F b = ([], b)
      rw [drain_unfold F hF b, if_neg hc]

theorem drain_append (F : Framing) (hF : FramingOk F) :
    ∀ k b e, b.length ≤ k →
      (drain F (b ++ e)).1 = (drain F b).1 ++ (drain F ((drain F b).2 ++ e)).1 ∧
      (drain F (b ++ e)).2 = (drain F ((drain F b).2 ++ e)).2 := by
  intro k
  induction k with
  | zero =>
    intro b e hk
    have hb : b = [] := List.length_eq_zero.mp (by omega)
    subst hb
    have h0 : drain F [] = ([], []) := by simp [drain, drainGo]
    rw [h0]
    simp
  | succ k ih =>
    intro b e hk
    by_cases hc : F.hasComplete b = true
    · obtain ⟨hpos, hle⟩ := hF.2.2 b hc
      have hce : F.hasComplete (b ++ e) = true := hF.1 b e hc
      have hge : F.getLen (b ++ e) = F.getLen b := hF.2.1 b e hc
      have htake : (b ++ e).take (F.getLen b) = b.take (F.getLen b) :=
        List.take_append_of_le_length hle
      have hdrop : (b ++ e).drop (F.getLen b) = b.drop (F.getLen b) ++ e :=
        List.drop_append_of_le_length hle
      have hih := ih (b.drop (F.getLen b)) e (by simp; omega)
      rw [drain_unfold F hF (b ++ e), if_pos hce, hge, htake, hdrop,
        drain_unfold F hF b, if_pos hc]
      constructor
      · simp only [List.cons_append]
        rw [hih.1]
      · exact hih.2
    · rw [drain_unfold F hF b, if_neg hc]
      simp

/-- Frames produced by feeding the chunks one `data` event at a time,
given that the held buffer has no complete frame (true of every
remainder the loop leaves behind). -/
theorem feedChunks_eq_drain_join (F : Framing) (hF : FramingOk F) :
    ∀ (cs : List (List Nat)) (buf : List Nat), (drain F buf).1 = [] →
      feedChunks F buf cs = (drain F (buf ++ cs.flatten)).1 := by
  intro cs
  induction cs with
  | nil =>
    intro buf hbuf
    simp only [feedChunks, List.flatten_nil, List.append_nil]
    exact hbuf.symm
  | cons c cs ih =>
    intro buf hbuf
    have hstable : drain F ((drain F (buf ++ c)).2) = ([], (drain F (buf ++ c)).2) :=
      drain_remainder_stable F hF (buf ++ c).length (buf ++ c) le_rfl
    have hr : (drain F ((drain F (buf ++ c)).2)).1 = [] := by rw [hstable]
    simp only [feedChunks]
    rw [ih ((drain F (buf ++ c)).2) hr]
    have hsplit := drain_append F hF (buf ++ c).length (buf ++ c) cs.flatten le_rfl
    simp only [List.flatten_cons]
    rw [show buf ++ (c ++ cs.flatten) = (buf ++ c) ++ cs.flatten by simp, hsplit.1]

/-- Chunk-delivery invariance from the empty initial buffer. -/
theorem feedChunks_single (F : Framing) (hF : FramingOk F) (cs : List (List Nat)) :
    feedChunks F [] cs = (drain F cs.flatten).1 := by
  have h0 : drain F [] = ([], []) := by simp [drain, drainGo]
  have := feedChunks_eq_drain_join F hF cs [] (by rw [h0])
  simpa using this

/-! ## Claim theorems -/

/-- C7: for every byte stream and every partition of it into chunks, the
frames yielded by the per-connection reassembler (repeated
`hasCompletePacket` / `getPacketLength` slicing over the concatenated
receive buffer) equal the frames yielded when the same stream arrives as a
single chunk, for both the GT06 and the Teltonika framings. -/
theorem claimC7_reassembly_chunk_invariance (cs : List (List Nat)) :
    feedChunks gt06Framing [] cs = feedChunks gt06Framing [] [cs.flatten] ∧
    feedChunks teltonikaFraming [] cs = feedChunks teltonikaFraming [] [cs.flatten] := by
  have hs : ∀ F, FramingOk F → feedChunks F [] [cs.flatten] = (drain F cs.flatten).1 := by
    intro F hF
    have := feedChunks_single F hF [cs.flatten]
    simpa using this
  exact ⟨(feedChunks_single _ gt06FramingOk cs).trans (hs _ gt06FramingOk).symm,
    (feedChunks_single _ teltonikaFramingOk cs).trans (hs _ teltonikaFramingOk).symm⟩

/-- C10: the standalone IMEI validation helper (src/utils/common.ts)
returns true for every input, so the standalone GT06 processing path marks
every LOGIN connection authorised, binds the packet's IMEI, and never
destroys the socket, regardless of allow-list membership. -/
theorem claimC10_standalone_validation_accepts_all :
    (∀ s, validateImei s = true) ∧
    (∀ meta pts fi, pts.contains PacketType.LOGIN = true →
      (processGt06 meta pts fi).isAuthorized = true ∧
      (processGt06 meta pts fi).destroyed = meta.destroyed ∧
      (processGt06 meta pts fi).imei = fi) := by
  refine ⟨fun s => rfl, fun meta pts fi hl => ?_⟩
  have hmem : PacketType.LOGIN ∈ pts := by simpa using hl
  simp [processGt06, validateImei, hmem]

/-- Witness for C10 at a concrete parsed-data shape. -/
theorem claimC10_witness :
    [PacketType.LOGIN].contains PacketType.LOGIN = true ∧
    (processGt06 ⟨none, false, false⟩ [PacketType.LOGIN] (some "3332210")).isAuthorized = true ∧
    (processGt06 ⟨none, false, false⟩ [PacketType.LOGIN] (some "3332210")).destroyed = false ∧
    (processGt06 ⟨none, false, false⟩ [PacketType.LOGIN] (some "3332210")).imei = some "3332210" :=
  ⟨by decide,
   (claimC10_standalone_validation_accepts_all.2 ⟨none, false, false⟩ [PacketType.LOGIN]
     (some "3332210") (by decide)).1,
   (claimC10_standalone_validation_accepts_all.2 ⟨none, false, false⟩ [PacketType.LOGIN]
     (some "3332210") (by decide)).2.1,
   (claimC10_standalone_validation_accepts_all.2 ⟨none, false, false⟩ [PacketType.LOGIN]
     (some "3332210") (by decide)).2.2⟩

/-- C8 counterexample: with a valid bearer token and a successful
immediate dispatch, `SendCommand` creates no SQL row — the claim's
"persisted in all cases" fails at this input. -/
theorem claimC8_counterexample :
    canActivate (some "Bearer k") "k" = Except.ok true ∧ (apiSendCommand true).1 = false := by
  exact ⟨rfl, rfl⟩

/-- C8 as amended: a missing or mismatching bearer is rejected by the
guard (NestJS answers 401 before the controller, so nothing is enqueued),
and with a valid token the SQL `commandQueue` row is created exactly when
immediate dispatch is not reported successful; no Redis list write happens
at enqueue time. -/
theorem claimC8_persist_only_when_dispatch_fails :
    (∀ s, canActivate none s = Except.error "Authorization header is missing") ∧
    (∀ hdr s, canActivate (some hdr) s = Except.ok true → (jsSplitSpace hdr).get? 1 = some s) ∧
    (∀ sent, (apiSendCommand sent).1 = !sent) := by
  refine ⟨fun s => rfl, fun hdr s h => ?_, fun sent => by cases sent <;> rfl⟩
  dsimp only [canActivate] at h
  split_ifs at h with h1
  cases hget : (jsSplitSpace hdr).get? 1 with
  | none => rw [hget] at h; exact absurd h (by simp)
  | some t =>
    rw [hget] at h
    dsimp only at h
    split_ifs at h with h2
    have ht : t = s := by
      rcases not_or.mp h2 with ⟨_, h3⟩
      simpa using h3
    exact congrArg some ht

/-- Witness for C8: the amended theorem applied to a concrete valid
header and a concrete dispatch outcome. -/
theorem claimC8_witness :
    (jsSplitSpace "Bearer tok").get? 1 = some "tok" ∧ (apiSendCommand false).1 = !false :=
  ⟨claimC8_persist_only_when_dispatch_fails.2.1 "Bearer tok" "tok" (by rfl),
   claimC8_persist_only_when_dispatch_fails.2.2 false⟩

set_option maxRecDepth 4000 in
/-- C3 counterexample: a GT06 LOGIN frame whose checksum bytes are zeroed
fails both the CRC-ITU and the additive check, yet the `GT06Service`
decoder registered for the GT06 port still produces a LOGIN packet that
requires (and receives) an ACK — the claim's "for every received frame the
decoder verifies ... and drops" is false on the live path. -/
theorem claimC3_counterexample :
    gt06DecoderChecksumOk
      [0x78, 0x78, 0x0D, 0x01, 0x00, 0x00, 0x00, 0x00, 0x03, 0x33, 0x22, 0x10,
       0x00, 0x01, 0x00, 0x00, 0x0D, 0x0A] = false ∧
    (gt06ServiceDecode
      [0x78, 0x78, 0x0D, 0x01, 0x00, 0x00, 0x00, 0x00, 0x03, 0x33, 0x22, 0x10,
       0x00, 0x01, 0x00, 0x00, 0x0D, 0x0A] none).ptype = PacketType.LOGIN ∧
    (gt06ServiceDecode
      [0x78, 0x78, 0x0D, 0x01, 0x00, 0x00, 0x00, 0x00, 0x03, 0x33, 0x22, 0x10,
       0x00, 0x01, 0x00, 0x00, 0x0D, 0x0A] none).requiresAck = true := by
  refine ⟨by decide, rfl, rfl⟩

/-- C3 as amended: the standalone `GT06Decoder` does verify the checksum —
CRC with initial 0xFFFF and polynomial 0x1021 over the bytes from the
length field up to the checksum, with the 16-bit additive fallback — and
returns no packet when both fail, while accepting the frame when either
passes; the `GT06Service` decoder wired to the GT06 port performs no
checksum verification (see the counterexample input). -/
theorem claimC3_decoder_checksum_gate :
    (∀ b m, gt06DecoderHasCompletePacket b = true → gt06DecoderChecksumOk b = false →
      gt06DecoderDecode b m = none) ∧
    (∀ b m, gt06DecoderHasCompletePacket b = true → gt06DecoderChecksumOk b = true →
      (gt06DecoderDecode b m).isSome = true) := by
  constructor
  · intro b m hc hk
    unfold gt06DecoderDecode
    rw [if_neg (by simp [hc])]
    dsimp only
    rw [if_pos (by simp [hk])]
  · intro b m hc hk
    unfold gt06DecoderDecode
    rw [if_neg (by simp [hc])]
    dsimp only
    rw [if_neg (by simp [hk])]
    split_ifs <;> simp

set_option maxRecDepth 4000 in
/-- Witness for C3: the amended theorem applied to the corrupt frame. -/
theorem claimC3_witness :
    gt06DecoderDecode
      [0x78, 0x78, 0x0D, 0x01, 0x00, 0x00, 0x00, 0x00, 0x03, 0x33, 0x22, 0x10,
       0x00, 0x01, 0x00, 0x00, 0x0D, 0x0A] none = none :=
  claimC3_decoder_checksum_gate.1
    [0x78, 0x78, 0x0D, 0x01, 0x00, 0x00, 0x00, 0x00, 0x03, 0x33, 0x22, 0x10,
     0x00, 0x01, 0x00, 0x00, 0x0D, 0x0A] none (by decide) (by decide)

theorem gt06ServiceDecodeLocation_latitude (b : List Nat) (off : Nat) :
    (gt06ServiceDecodeLocation b off).1.latitude =
      if readU16BE b (off + 16) &&& 0x0400 ≠ 0 then (readU32BE b (off + 7) : ℚ) / 1800000
      else -((readU32BE b (off + 7) : ℚ) / 1800000) := rfl

theorem gt06ServiceDecodeLocation_longitude (b : List Nat) (off : Nat) :
    (gt06ServiceDecodeLocation b off).1.longitude =
      if readU16BE b (off + 16) &&& 0x0800 ≠ 0 then -((readU32BE b (off + 11) : ℚ) / 1800000)
      else (readU32BE b (off + 11) : ℚ) / 1800000 := rfl

theorem gt06ServiceDecodeLocation_valid (b : List Nat) (off : Nat) :
    (gt06ServiceDecodeLocation b off).2 =
      (isValidCoordinate (gt06ServiceDecodeLocation b off).1.latitude
        (gt06ServiceDecodeLocation b off).1.longitude &&
       decide (readU16BE b (off + 16) &&& 0x1000 ≠ 0)) := rfl

theorem gt06DecoderDecodeLocation_latitude (b : List Nat) (hs len : Nat) :
    (gt06DecoderDecodeLocation b hs len).latitude =
      if readU16BE b (hs + 1 + 16) &&& 0x0400 ≠ 0 then (readU32BE b (hs + 1 + 7) : ℚ) / 1800000
      else -((readU32BE b (hs + 1 + 7) : ℚ) / 1800000) := rfl

theorem gt06DecoderParseLocationInfo_latitude (b : List Nat) (off : Nat) :
    (gt06DecoderParseLocationInfo b off).latitude =
      if readU16BE b (off + 16) &&& 0x0400 ≠ 0 then -((readU32BE b (off + 7) : ℚ) / 1800000)
      else (readU32BE b (off + 7) : ℚ) / 1800000 := rfl

/-- C5 (code bug): at a GT06 location payload with latitude magnitude
14.9° (raw 26 820 000), longitude magnitude 5.2° (raw 9 360 000) and
course/status word 0x140A (bits 12 and 10 set, bit 11 clear), the
`GT06Service.decodeLocation` path and the `GT06Decoder.decodeLocationPacket`
path both yield +14.9 — bit 10 set means North, as the repository's GT06
protocol document and the code's own comments state — while
`GT06Decoder.parseLocationInfo`, the parser of the alarm decode path,
yields −14.9: it maps bit 10 set to the southern hemisphere. -/
theorem claimC5_alarm_path_latitude_sign :
    (gt06ServiceDecodeLocation
      [24, 1, 1, 0, 0, 0, 0xC7, 0x01, 0x99, 0x3D, 0xA0, 0x00, 0x8E, 0xD2, 0x80,
       0, 0x14, 0x0A, 0, 1, 0, 0, 13, 10] 0).1.latitude = 149 / 10 ∧
    (gt06ServiceDecodeLocation
      [24, 1, 1, 0, 0, 0, 0xC7, 0x01, 0x99, 0x3D, 0xA0, 0x00, 0x8E, 0xD2, 0x80,
       0, 0x14, 0x0A, 0, 1, 0, 0, 13, 10] 0).1.longitude = 26 / 5 ∧
    (gt06DecoderDecodeLocation
      [0x78, 0x78, 0x1F, 0x12, 24, 1, 1, 0, 0, 0, 0xC7, 0x01, 0x99, 0x3D, 0xA0,
       0x00, 0x8E, 0xD2, 0x80, 0, 0x14, 0x0A, 0, 1, 0, 0, 2, 0, 0, 3, 0, 5,
       0, 0, 0x0D, 0x0A] 3 31).latitude = 149 / 10 ∧
    (gt06DecoderParseLocationInfo
      [0x07, 24, 1, 1, 0, 0, 0, 0x01, 0x99, 0x3D, 0xA0, 0x00, 0x8E, 0xD2, 0x80,
       0, 0x14, 0x0A, 0, 0, 0, 0, 0, 0, 0, 0, 0] 0).latitude = -(149 / 10) ∧
    0x140A &&& 0x0400 ≠ 0 ∧ 0x140A &&& 0x1000 ≠ 0 := by
  refine ⟨?_, ?_, ?_, ?_, by decide, by decide⟩
  · rw [gt06ServiceDecodeLocation_latitude, if_pos (by decide),
      show readU32BE [24, 1, 1, 0, 0, 0, 0xC7, 0x01, 0x99, 0x3D, 0xA0, 0x00, 0x8E, 0xD2, 0x80,
        0, 0x14, 0x0A, 0, 1, 0, 0, 13, 10] (0 + 7) = 26820000 from by decide]
    norm_num
  · rw [gt06ServiceDecodeLocation_longitude, if_neg (by decide),
      show readU32BE [24, 1, 1, 0, 0, 0, 0xC7, 0x01, 0x99, 0x3D, 0xA0, 0x00, 0x8E, 0xD2, 0x80,
        0, 0x14, 0x0A, 0, 1, 0, 0, 13, 10] (0 + 11) = 9360000 from by decide]
    norm_num
  · rw [gt06DecoderDecodeLocation_latitude, if_pos (by decide),
      show readU32BE [0x78, 0x78, 0x1F, 0x12, 24, 1, 1, 0, 0, 0, 0xC7, 0x01, 0x99, 0x3D, 0xA0,
        0x00, 0x8E, 0xD2, 0x80, 0, 0x14, 0x0A, 0, 1, 0, 0, 2, 0, 0, 3, 0, 5,
        0, 0, 0x0D, 0x0A] (3 + 1 + 7) = 26820000 from by decide]
    norm_num
  · rw [gt06DecoderParseLocationInfo_latitude, if_pos (by decide),
      show readU32BE [0x07, 24, 1, 1, 0, 0, 0, 0x01, 0x99, 0x3D, 0xA0, 0x00, 0x8E, 0xD2, 0x80,
        0, 0x14, 0x0A, 0, 0, 0, 0, 0, 0, 0, 0, 0] (0 + 7) = 26820000 from by decide]
    norm_num

/-- C6 counterexample: a minimal AVL frame (codec 8, zero records) whose
4-byte CRC field holds the claim's CRC-16/IBM value (poly 0xA001, init 0)
zero-extended: the claimed low-16-bit comparison passes, but the code's
check — the shared CRC-CCITT `calculateCrc16` against the full 32-bit
field — reports a mismatch, so the claim misdescribes the computed CRC. -/
theorem claimC6_counterexample :
    specTeltonikaCrcCheck [0, 0, 0, 0, 0, 0, 0, 3, 8, 0, 0, 0, 0, 0xC2, 0x81] = true ∧
    teltonikaCrcMatches [0, 0, 0, 0, 0, 0, 0, 3, 8, 0, 0, 0, 0, 0xC2, 0x81] = false ∧
    (teltonikaDecodeAvlPacket [0, 0, 0, 0, 0, 0, 0, 3, 8, 0, 0, 0, 0, 0xC2, 0x81]
      none).isSome = true := by
  refine ⟨by decide, by decide, by decide⟩

/-- C6 as amended: the Teltonika CRC check computes the shared
`calculateCrc16` (CRC-CCITT, poly 0x1021, init 0xFFFF) over the bytes from
the codec id through the trailing record count and compares it against the
full 4-byte CRC field; a mismatch only logs — the frame is still decoded
into a packet that requires an ACK, and the ACK carries the record
count. -/
theorem claimC6_mismatch_still_decoded_and_acked :
    ∀ b m, readU32BE b 0 = 0 → teltonikaCrcMatches b = false →
      ∃ p, teltonikaDecodeAvlPacket b m = some p ∧ p.requiresAck = true ∧
        teltonikaGenerateAck p = u32ToBytes (byteAt b 9) := by
  intro b m hpre _
  have hdec : teltonikaDecodeAvlPacket b m = some
      { ptype := if (teltonikaParseRecords b (byteAt b 8) (byteAt b 9) 10).1.length = 0
                 then PacketType.HEARTBEAT else PacketType.LOCATION,
        imei := m, requiresAck := true, codecId := byteAt b 8,
        recordCount := byteAt b 9,
        records := (teltonikaParseRecords b (byteAt b 8) (byteAt b 9) 10).1 } := by
    unfold teltonikaDecodeAvlPacket
    rw [if_neg (by simp [hpre])]
  refine ⟨_, hdec, rfl, ?_⟩
  unfold teltonikaGenerateAck
  rw [if_neg (by by_cases hw :
      (teltonikaParseRecords b (byteAt b 8) (byteAt b 9) 10).1.length = 0 <;> simp [hw])]

/-- Witness for C6: the amended theorem at the counterexample frame. -/
theorem claimC6_witness :
    ∃ p, teltonikaDecodeAvlPacket [0, 0, 0, 0, 0, 0, 0, 3, 8, 0, 0, 0, 0, 0xC2, 0x81]
        none = some p ∧ p.requiresAck = true ∧
      teltonikaGenerateAck p =
        u32ToBytes (byteAt [0, 0, 0, 0, 0, 0, 0, 3, 8, 0, 0, 0, 0, 0xC2, 0x81] 9) :=
  claimC6_mismatch_still_decoded_and_acked
    [0, 0, 0, 0, 0, 0, 0, 3, 8, 0, 0, 0, 0, 0xC2, 0x81] none (by decide) (by decide)

/-- What one pass of the command-drain loop does: every snapshotted entry
is written in order, every snapshotted id is deleted from the SQL rows —
with no regard to the write results — and the rest of the connection state
is untouched. -/
theorem gt06DrainCommands_spec (writeOk : List Nat → Bool) :
    ∀ (cs : List CmdEntry) (st : Gt06ConnState),
      (gt06DrainCommands writeOk st cs).written =
        st.written ++ cs.map (fun c => gt06EncodeCommand c.command 1) ∧
      (gt06DrainCommands writeOk st cs).sqlRows =
        st.sqlRows.filter (fun row => cs.all (fun c => c.id ≠ row.id)) ∧
      (gt06DrainCommands writeOk st cs).destroyed = st.destroyed ∧
      (gt06DrainCommands writeOk st cs).metaImei = st.metaImei ∧
      (gt06DrainCommands writeOk st cs).isAuthorized = st.isAuthorized ∧
      (gt06DrainCommands writeOk st cs).forwarded = st.forwarded := by
  intro cs
  induction cs with
  | nil =>
    intro st
    simp [gt06DrainCommands]
  | cons c cs ih =>
    intro st
    obtain ⟨h1, h2, h3, h4, h5, h6⟩ :=
      ih { st with written := st.written ++ [gt06EncodeCommand c.command 1],
                   redisQueue := lremFirstById st.redisQueue c.id,
                   sqlRows := sqlDeleteById st.sqlRows c.id }
    refine ⟨?_, ?_, h3, h4, h5, h6⟩
    · rw [show gt06DrainCommands writeOk st (c :: cs) =
        gt06DrainCommands writeOk
          { st with written := st.written ++ [gt06EncodeCommand c.command 1],
                    redisQueue := lremFirstById st.redisQueue c.id,
                    sqlRows := sqlDeleteById st.sqlRows c.id } cs from rfl, h1]
      simp
    · rw [show gt06DrainCommands writeOk st (c :: cs) =
        gt06DrainCommands writeOk
          { st with written := st.written ++ [gt06EncodeCommand c.command 1],
                    redisQueue := lremFirstById st.redisQueue c.id,
                    sqlRows := sqlDeleteById st.sqlRows c.id } cs from rfl, h2]
      show (List.filter _ (st.sqlRows.filter fun r => decide (r.id ≠ c.id))) = _
      rw [List.filter_filter]
      refine List.filter_congr ?_
      intro row _
      simp only [List.all_cons]
      rw [Bool.and_comm]
      congr 1
      exact decide_eq_decide.mpr ne_comm

set_option maxRecDepth 4000 in
/-- C1 counterexample: with two enqueued commands and one triggering
LOGIN packet from a live authorised connection (and every socket write
failing), the gateway issues both commands on that single packet and both
SQL rows are gone — refuting "at most one command per triggering packet"
and "deletes each command's SQL row only after the socket write returns
success". -/
theorem claimC1_counterexample :
    (gt06ProcessDeviceData (fun _ => true) (fun _ => false)
      { metaImei := none, isAuthorized := false, destroyed := false, written := [],
        forwarded := [], redisQueue := [⟨1, [65]⟩, ⟨2, [66]⟩],
        sqlRows := [⟨1, [65]⟩, ⟨2, [66]⟩] }
      [{ imei := "3332210", packetType := PacketType.LOGIN, location := none,
         acc := none, serial := 1 }]).written.length = 2 ∧
    (gt06ProcessDeviceData (fun _ => true) (fun _ => false)
      { metaImei := none, isAuthorized := false, destroyed := false, written := [],
        forwarded := [], redisQueue := [⟨1, [65]⟩, ⟨2, [66]⟩],
        sqlRows := [⟨1, [65]⟩, ⟨2, [66]⟩] }
      [{ imei := "3332210", packetType := PacketType.LOGIN, location := none,
         acc := none, serial := 1 }]).sqlRows = [] := by
  refine ⟨by decide, by decide⟩

/-- C1 as amended: on the LOGIN packet of an allow-listed IMEI the gateway
dispatches ALL pending commands of that IMEI in FIFO order in one drain,
and deletes each SQL row right after the corresponding socket write
completes, regardless of the write result; HEARTBEAT and LOCATION packets
trigger no command dispatch. -/
theorem claimC1_fifo_drain_on_login :
    ∀ (allow : String → Bool) (writeOk : List Nat → Bool) (st : Gt06ConnState)
      (d : DeviceDataG),
      (d.packetType = PacketType.LOGIN → allow d.imei = true →
        (gt06ProcessDeviceData allow writeOk st [d]).written =
          st.written ++ st.redisQueue.map (fun c => gt06EncodeCommand c.command 1) ∧
        (gt06ProcessDeviceData allow writeOk st [d]).sqlRows =
          st.sqlRows.filter (fun row => st.redisQueue.all (fun c => c.id ≠ row.id))) ∧
      (d.packetType = PacketType.HEARTBEAT →
        (gt06ProcessDeviceData allow writeOk st [d]).written = st.written ∧
        (gt06ProcessDeviceData allow writeOk st [d]).sqlRows = st.sqlRows) ∧
      (d.packetType = PacketType.LOCATION →
        (gt06ProcessDeviceData allow writeOk st [d]).written = st.written ∧
        (gt06ProcessDeviceData allow writeOk st [d]).sqlRows = st.sqlRows) := by
  intro allow writeOk st d
  have hnologin : ∀ (h2 : PacketType), d.packetType = h2 → h2 ≠ PacketType.LOGIN →
      ((gt06ProcessDeviceData allow writeOk st [d]).written = st.written ∧
       (gt06ProcessDeviceData allow writeOk st [d]).sqlRows = st.sqlRows) := by
    intro h2 hh hne2
    have hne : ¬ d.packetType = PacketType.LOGIN := by rw [hh]; exact hne2
    by_cases hc : d.packetType = PacketType.LOCATION ∧ st.isAuthorized = true
    · rw [show gt06ProcessDeviceData allow writeOk st [d] =
          { st with forwarded := st.forwarded ++ [d] } by
        unfold gt06ProcessDeviceData
        rw [if_neg hne, if_pos hc]
        rfl]
      exact ⟨rfl, rfl⟩
    · rw [show gt06ProcessDeviceData allow writeOk st [d] = st by
        unfold gt06ProcessDeviceData
        rw [if_neg hne, if_neg hc]
        rfl]
      exact ⟨rfl, rfl⟩
  refine ⟨fun hl ha => ?_, fun hh => hnologin _ hh (by decide),
    fun hh => hnologin _ hh (by decide)⟩
  obtain ⟨h1, h2, _, _, _, _⟩ := gt06DrainCommands_spec writeOk st.redisQueue
    { st with metaImei := some d.imei, isAuthorized := true }
  rw [show gt06ProcessDeviceData allow writeOk st [d] =
      gt06DrainCommands writeOk { st with metaImei := some d.imei, isAuthorized := true }
        st.redisQueue by
    unfold gt06ProcessDeviceData
    rw [if_pos hl, if_neg (by simp [ha])]
    rfl]
  exact ⟨h1, h2⟩

set_option maxRecDepth 4000 in
/-- Witness for C1: the amended theorem at a one-command queue. -/
theorem claimC1_witness :
    (gt06ProcessDeviceData (fun _ => true) (fun _ => true)
      { metaImei := none, isAuthorized := false, destroyed := false, written := [],
        forwarded := [], redisQueue := [⟨7, [66]⟩], sqlRows := [⟨7, [66]⟩] }
      [{ imei := "3332210", packetType := PacketType.LOGIN, location := none,
         acc := none, serial := 1 }]).written =
      [] ++ [⟨7, [66]⟩].map (fun c : CmdEntry => gt06EncodeCommand c.command 1) ∧
    (gt06ProcessDeviceData (fun _ => true) (fun _ => true)
      { metaImei := none, isAuthorized := false, destroyed := false, written := [],
        forwarded := [], redisQueue := [⟨7, [66]⟩], sqlRows := [⟨7, [66]⟩] }
      [{ imei := "3332210", packetType := PacketType.LOGIN, location := none,
         acc := none, serial := 1 }]).sqlRows =
      [⟨7, [66]⟩].filter (fun row => [(⟨7, [66]⟩ : CmdEntry)].all (fun c => c.id ≠ row.id)) :=
  (claimC1_fifo_drain_on_login (fun _ => true) (fun _ => true)
    { metaImei := none, isAuthorized := false, destroyed := false, written := [],
      forwarded := [], redisQueue := [⟨7, [66]⟩], sqlRows := [⟨7, [66]⟩] }
    { imei := "3332210", packetType := PacketType.LOGIN, location := none,
      acc := none, serial := 1 }).1 rfl rfl

set_option maxRecDepth 8000 in
/-- C9 counterexample: a connection already bound to IMEI
999999999999999 receives a LOGIN frame for the (allow-listed) IMEI
3332210; the gateway rebinds `socket.meta.imei` to the new value and the
connection stays open — the claim says it closes instead of rebinding. -/
theorem claimC9_counterexample :
    ((gt06OnData (fun _ => true) (fun _ => true)
      { metaImei := some "999999999999999", isAuthorized := true, destroyed := false,
        written := [], forwarded := [], redisQueue := [], sqlRows := [] }
      [] [0x78, 0x78, 0x0D, 0x01, 0x00, 0x00, 0x00, 0x00, 0x03, 0x33, 0x22, 0x10,
          0x00, 0x01, 0x00, 0x77, 0x0D, 0x0A]).1).destroyed = false ∧
    ((gt06OnData (fun _ => true) (fun _ => true)
      { metaImei := some "999999999999999", isAuthorized := true, destroyed := false,
        written := [], forwarded := [], redisQueue := [], sqlRows := [] }
      [] [0x78, 0x78, 0x0D, 0x01, 0x00, 0x00, 0x00, 0x00, 0x03, 0x33, 0x22, 0x10,
          0x00, 0x01, 0x00, 0x77, 0x0D, 0x0A]).1).metaImei = some "3332210" := by
  refine ⟨by decide, by decide⟩

/-- C9 as amended: a LOGIN deviceData entry — first or subsequent — whose
IMEI passes the allow-list rebinds `socket.meta.imei` to the new IMEI
without closing; only an IMEI failing the allow-list destroys the
connection (leaving the old binding). -/
theorem claimC9_login_rebinds_instead_of_closing :
    ∀ (allow : String → Bool) (writeOk : List Nat → Bool) (st : Gt06ConnState)
      (d : DeviceDataG), d.packetType = PacketType.LOGIN →
      (allow d.imei = true →
        (gt06ProcessDeviceData allow writeOk st [d]).destroyed = st.destroyed ∧
        (gt06ProcessDeviceData allow writeOk st [d]).metaImei = some d.imei) ∧
      (allow d.imei = false →
        (gt06ProcessDeviceData allow writeOk st [d]).destroyed = true ∧
        (gt06ProcessDeviceData allow writeOk st [d]).metaImei = st.metaImei) := by
  intro allow writeOk st d hl
  constructor
  · intro ha
    obtain ⟨_, _, h3, h4, _, _⟩ := gt06DrainCommands_spec writeOk st.redisQueue
      { st with metaImei := some d.imei, isAuthorized := true }
    rw [show gt06ProcessDeviceData allow writeOk st [d] =
        gt06DrainCommands writeOk { st with metaImei := some d.imei, isAuthorized := true }
          st.redisQueue by
      unfold gt06ProcessDeviceData
      rw [if_pos hl, if_neg (by simp [ha])]
      rfl]
    exact ⟨h3, h4⟩
  · intro ha
    rw [show gt06ProcessDeviceData allow writeOk st [d] = { st with destroyed := true } by
      unfold gt06ProcessDeviceData
      rw [if_pos hl, if_pos (by simp [ha])]]
    exact ⟨rfl, rfl⟩

/-- Witness for C9: the amended theorem at a concrete rebinding login. -/
theorem claimC9_witness :
    (gt06ProcessDeviceData (fun _ => true) (fun _ => true)
      { metaImei := some "999999999999999", isAuthorized := true, destroyed := false,
        written := [], forwarded := [], redisQueue := [], sqlRows := [] }
      [{ imei := "3332210", packetType := PacketType.LOGIN, location := none,
         acc := none, serial := 1 }]).destroyed = false ∧
    (gt06ProcessDeviceData (fun _ => true) (fun _ => true)
      { metaImei := some "999999999999999", isAuthorized := true, destroyed := false,
        written := [], forwarded := [], redisQueue := [], sqlRows := [] }
      [{ imei := "3332210", packetType := PacketType.LOGIN, location := none,
         acc := none, serial := 1 }]).metaImei = some "3332210" :=
  (claimC9_login_rebinds_instead_of_closing (fun _ => true) (fun _ => true)
    { metaImei := some "999999999999999", isAuthorized := true, destroyed := false,
      written := [], forwarded := [], redisQueue := [], sqlRows := [] }
    { imei := "3332210", packetType := PacketType.LOGIN, location := none,
      acc := none, serial := 1 } rfl).1 rfl

/-- A packet the service decoder types as LOGIN comes from the 0x01
branch: some IMEI string, a login payload, ACK required. -/
theorem gt06ServiceDecode_login_shape (b : List Nat) (m : Option String)
    (h : (gt06ServiceDecode b m).ptype = PacketType.LOGIN) :
    ∃ hx s, gt06ServiceDecode b m =
      { ptype := PacketType.LOGIN, imei := some (hexToImei hx), requiresAck := true,
        serial := s, payload := GT06Payload.login hx } := by
  unfold gt06ServiceDecode at h ⊢
  dsimp only at h ⊢
  split_ifs at h ⊢ <;> exact ⟨_, _, rfl⟩

set_option maxRecDepth 8000 in
/-- C2 counterexample: an unauthorised GT06 LOGIN (IMEI 3332210 not in the
allow-list) receives the full 10-byte positive LOGIN ACK — written by
`handleData` before `processData` runs the allow-list check and destroys
the socket — so the gateway writes 10 bytes, not zero, before closing. -/
theorem claimC2_counterexample :
    ((gt06OnData (fun _ => false) (fun _ => true)
      { metaImei := none, isAuthorized := false, destroyed := false, written := [],
        forwarded := [], redisQueue := [], sqlRows := [] }
      [] [0x78, 0x78, 0x0D, 0x01, 0x00, 0x00, 0x00, 0x00, 0x03, 0x33, 0x22, 0x10,
          0x00, 0x01, 0x00, 0x77, 0x0D, 0x0A]).1).destroyed = true ∧
    ((gt06OnData (fun _ => false) (fun _ => true)
      { metaImei := none, isAuthorized := false, destroyed := false, written := [],
        forwarded := [], redisQueue := [], sqlRows := [] }
      [] [0x78, 0x78, 0x0D, 0x01, 0x00, 0x00, 0x00, 0x00, 0x03, 0x33, 0x22, 0x10,
          0x00, 0x01, 0x00, 0x77, 0x0D, 0x0A]).1).written =
      [[0x78, 0x78, 0x05, 0x01, 0x00, 0x01, 0x1F, 0x94, 0x0D, 0x0A]] ∧
    ((gt06OnData (fun _ => false) (fun _ => true)
      { metaImei := none, isAuthorized := false, destroyed := false, written := [],
        forwarded := [], redisQueue := [], sqlRows := [] }
      [] [0x78, 0x78, 0x0D, 0x01, 0x00, 0x00, 0x00, 0x00, 0x03, 0x33, 0x22, 0x10,
          0x00, 0x01, 0x00, 0x77, 0x0D, 0x0A]).1).forwarded = [] := by
  refine ⟨by decide, by decide, by decide⟩

/-- C2 as amended: on a LOGIN whose IMEI fails the allow-list, the GT06
pipeline first writes the positive 10-byte LOGIN ACK (`handleData` ACKs
every decoded packet before `processData` validates) and only then
destroys the connection, forwarding no device record; the Teltonika
`generateAck` answers every IMEI handshake with the accept byte 0x01 and
its processing path never destroys the socket (no allow-list check
exists there). -/
theorem claimC2_positive_ack_before_unauthorized_close :
    (∀ (allow : String → Bool) (wk : List Nat → Bool) (st : Gt06ConnState)
      (frame : List Nat),
      (gt06ServiceDecode frame st.metaImei).ptype = PacketType.LOGIN →
      (gt06ServiceDecode frame st.metaImei).imei.getD "" ≠ "" →
      allow ((gt06ServiceDecode frame st.metaImei).imei.getD "") = false →
      (gt06ProcessDeviceData allow wk (gt06HandleFrames st [frame]).1
        (gt06HandleFrames st [frame]).2).destroyed = true ∧
      (gt06ProcessDeviceData allow wk (gt06HandleFrames st [frame]).1
        (gt06HandleFrames st [frame]).2).written =
        st.written ++ [gt06GenerateAck (gt06ServiceDecode frame st.metaImei)] ∧
      (gt06ProcessDeviceData allow wk (gt06HandleFrames st [frame]).1
        (gt06HandleFrames st [frame]).2).forwarded = st.forwarded) ∧
    (∀ (st : TeltonikaConnState) (frame : List Nat), readU16BE frame 0 = 15 →
      (teltonikaHandleFrame st frame).written = st.written ++ [[0x01]] ∧
      (teltonikaHandleFrame st frame).destroyed = st.destroyed) := by
  constructor
  · intro allow wk st frame hptype himei hallow
    obtain ⟨hx, s, hdec⟩ := gt06ServiceDecode_login_shape frame st.metaImei hptype
    rw [hdec] at himei hallow ⊢
    have himei' : hexToImei hx ≠ "" := by simpa using himei
    have hallow' : allow (hexToImei hx) = false := by simpa using hallow
    have hhf : gt06HandleFrames st [frame] =
        ({ st with metaImei := some (hexToImei hx),
                   written := st.written ++ [gt06GenerateAck
                     { ptype := PacketType.LOGIN, imei := some (hexToImei hx),
                       requiresAck := true, serial := s,
                       payload := GT06Payload.login hx }] },
         [{ imei := hexToImei hx, packetType := PacketType.LOGIN, location := none,
            acc := none, serial := s }]) := by
      have hguard : ¬ ((some (hexToImei hx)).getD "" = "" ∧
          PacketType.LOGIN ≠ PacketType.LOCATION ∧ PacketType.LOGIN ≠ PacketType.ALARM) := by
        simp [himei']
      have hsel : ¬ ((some (hexToImei hx)).getD "" = "") := by simp [himei']
      unfold gt06HandleFrames gt06HandleFrame
      rw [hdec]
      dsimp only
      rw [if_pos himei]
      unfold gt06TransformToDeviceData
      dsimp only
      rw [if_neg hguard, if_neg hsel]
      dsimp only
      rfl
    rw [hhf]
    rw [show gt06ProcessDeviceData allow wk
        { st with metaImei := some (hexToImei hx),
                  written := st.written ++ [gt06GenerateAck
                    { ptype := PacketType.LOGIN, imei := some (hexToImei hx),
                      requiresAck := true, serial := s,
                      payload := GT06Payload.login hx }] }
        [{ imei := hexToImei hx, packetType := PacketType.LOGIN, location := none,
           acc := none, serial := s }] =
        { st with metaImei := some (hexToImei hx),
                  written := st.written ++ [gt06GenerateAck
                    { ptype := PacketType.LOGIN, imei := some (hexToImei hx),
                      requiresAck := true, serial := s,
                      payload := GT06Payload.login hx }],
                  destroyed := true } by
      unfold gt06ProcessDeviceData
      rw [if_pos rfl, if_pos (by simp [hallow'])]]
    exact ⟨rfl, rfl, rfl⟩
  · intro st frame h15
    unfold teltonikaHandleFrame teltonikaDecode
    rw [if_pos h15]
    by_cases hi : (teltonikaDecodeImeiPacket frame).imei.getD "" ≠ "" <;>
      simp [hi, teltonikaGenerateAck, teltonikaDecodeImeiPacket] <;>
      split_ifs <;> exact ⟨rfl, rfl⟩

set_option maxRecDepth 8000 in
/-- Witness for C2: the amended theorem at the concrete unauthorised
login frame and a concrete Teltonika handshake. -/
theorem claimC2_witness :
    ((gt06ProcessDeviceData (fun _ => false) (fun _ => true)
      (gt06HandleFrames
        { metaImei := none, isAuthorized := false, destroyed := false, written := [],
          forwarded := [], redisQueue := [], sqlRows := [] }
        [[0x78, 0x78, 0x0D, 0x01, 0x00, 0x00, 0x00, 0x00, 0x03, 0x33, 0x22, 0x10,
          0x00, 0x01, 0x00, 0x77, 0x0D, 0x0A]]).1
      (gt06HandleFrames
        { metaImei := none, isAuthorized := false, destroyed := false, written := [],
          forwarded := [], redisQueue := [], sqlRows := [] }
        [[0x78, 0x78, 0x0D, 0x01, 0x00, 0x00, 0x00, 0x00, 0x03, 0x33, 0x22, 0x10,
          0x00, 0x01, 0x00, 0x77, 0x0D, 0x0A]]).2).destroyed = true) ∧
    (teltonikaHandleFrame { metaImei := none, destroyed := false, written := [], forwarded := [] }
      ([0x00, 0x0F] ++ [0x33, 0x35, 0x37, 0x36, 0x38, 0x39, 0x30, 0x37, 0x38, 0x36,
        0x39, 0x39, 0x36, 0x30, 0x30])).written = [] ++ [[0x01]] :=
  ⟨(claimC2_positive_ack_before_unauthorized_close.1 (fun _ => false) (fun _ => true)
    { metaImei := none, isAuthorized := false, destroyed := false, written := [],
      forwarded := [], redisQueue := [], sqlRows := [] }
    [0x78, 0x78, 0x0D, 0x01, 0x00, 0x00, 0x00, 0x00, 0x03, 0x33, 0x22, 0x10,
     0x00, 0x01, 0x00, 0x77, 0x0D, 0x0A] (by decide) (by decide) rfl).1,
   (claimC2_positive_ack_before_unauthorized_close.2
    { metaImei := none, destroyed := false, written := [], forwarded := [] }
    ([0x00, 0x0F] ++ [0x33, 0x35, 0x37, 0x36, 0x38, 0x39, 0x30, 0x37, 0x38, 0x36,
      0x39, 0x39, 0x36, 0x30, 0x30]) (by decide)).1⟩

/-- C4: `location.valid` is true only if the coordinates are in range and
the GPS-fixed flag is set.  For GT06 (`GT06Service.decodeLocation`), a
true `valid` forces `-90 ≤ lat ≤ 90`, `-180 ≤ lon ≤ 180`, not both zero,
AND bit 12 of the course/status word; `transformToDeviceData` copies the
location and the flag into the device record unchanged.  For Teltonika,
`transformToDeviceData` computes `valid` from the coordinate range alone —
the decoded AVL record carries no GPS-fixed flag, so the flag conjunct is
vacuous there — and a true `valid` still forces the claimed range. -/
theorem claimC4_location_valid_only_if_range_and_fix :
    (∀ b off, (gt06ServiceDecodeLocation b off).2 = true →
      ((-90 : ℚ) ≤ (gt06ServiceDecodeLocation b off).1.latitude ∧
       (gt06ServiceDecodeLocation b off).1.latitude ≤ 90 ∧
       (-180 : ℚ) ≤ (gt06ServiceDecodeLocation b off).1.longitude ∧
       (gt06ServiceDecodeLocation b off).1.longitude ≤ 180 ∧
       ¬((gt06ServiceDecodeLocation b off).1.latitude = 0 ∧
         (gt06ServiceDecodeLocation b off).1.longitude = 0)) ∧
      readU16BE b (off + 16) &&& 0x1000 ≠ 0) ∧
    (∀ p d l info v, gt06TransformToDeviceData p = some d → d.location = some l →
      (p.payload = GT06Payload.location info v ∨ p.payload = GT06Payload.alarm info v) →
      l.valid = v ∧ l.latitude = info.latitude ∧ l.longitude = info.longitude) ∧
    (∀ p d l, teltonikaTransformToDeviceData p = some d → d.location = some l →
      l.valid = true →
      (-90 : ℚ) ≤ l.latitude ∧ l.latitude ≤ 90 ∧ (-180 : ℚ) ≤ l.longitude ∧
      l.longitude ≤ 180 ∧ ¬(l.latitude = 0 ∧ l.longitude = 0)) := by
  refine ⟨?_, ?_, ?_⟩
  · intro b off hv
    rw [gt06ServiceDecodeLocation_valid] at hv
    rcases Bool.and_eq_true_iff.mp hv with ⟨hcoord, hfix⟩
    have hc := of_decide_eq_true hcoord
    refine ⟨⟨hc.1, hc.2.1, hc.2.2.1, hc.2.2.2.1, ?_⟩, of_decide_eq_true hfix⟩
    rcases hc.2.2.2.2 with h | h
    · exact fun hz => h hz.1
    · exact fun hz => h hz.2
  · intro p d l info v htr hloc hpay
    unfold gt06TransformToDeviceData at htr
    split_ifs at htr
    all_goals
      rcases hpay with h | h <;> rw [h] at htr <;> dsimp only at htr <;>
        (injection htr with htr; rw [← htr] at hloc; dsimp only at hloc;
         injection hloc with hloc; rw [← hloc]; exact ⟨rfl, rfl, rfl⟩)
  · intro p d l htr hloc hval
    unfold teltonikaTransformToDeviceData at htr
    split_ifs at htr with h1 h2
    · cases hrec : p.records with
      | nil =>
        rw [hrec] at htr
        dsimp only at htr
        injection htr with htr
        rw [← htr] at hloc
        exact absurd hloc (by simp)
      | cons r rs =>
        rw [hrec] at htr
        dsimp only at htr
        injection htr with htr
        rw [← htr] at hloc
        dsimp only at hloc
        injection hloc with hloc
        rw [← hloc] at hval ⊢
        dsimp only at hval ⊢
        have hc := of_decide_eq_true (by simpa [isValidCoordinate] using hval)
        refine ⟨hc.1, hc.2.1, hc.2.2.1, hc.2.2.2.1, ?_⟩
        rcases hc.2.2.2.2 with h | h
        · exact fun hz => h hz.1
        · exact fun hz => h hz.2
    · injection htr with htr
      rw [← htr] at hloc
      exact absurd hloc (by simp)

set_option maxRecDepth 4000 in
/-- Witness for C4: the GT06 conjunct at the concrete in-range location
payload (bit 12 set) and the Teltonika conjunct at a one-record packet. -/
theorem claimC4_witness :
    ((-90 : ℚ) ≤ (gt06ServiceDecodeLocation
      [24, 1, 1, 0, 0, 0, 0xC7, 0x01, 0x99, 0x3D, 0xA0, 0x00, 0x8E, 0xD2, 0x80,
       0, 0x14, 0x0A, 0, 1, 0, 0, 13, 10] 0).1.latitude ∧
     (gt06ServiceDecodeLocation
      [24, 1, 1, 0, 0, 0, 0xC7, 0x01, 0x99, 0x3D, 0xA0, 0x00, 0x8E, 0xD2, 0x80,
       0, 0x14, 0x0A, 0, 1, 0, 0, 13, 10] 0).1.latitude ≤ 90 ∧
     (-180 : ℚ) ≤ (gt06ServiceDecodeLocation
      [24, 1, 1, 0, 0, 0, 0xC7, 0x01, 0x99, 0x3D, 0xA0, 0x00, 0x8E, 0xD2, 0x80,
       0, 0x14, 0x0A, 0, 1, 0, 0, 13, 10] 0).1.longitude ∧
     (gt06ServiceDecodeLocation
      [24, 1, 1, 0, 0, 0, 0xC7, 0x01, 0x99, 0x3D, 0xA0, 0x00, 0x8E, 0xD2, 0x80,
       0, 0x14, 0x0A, 0, 1, 0, 0, 13, 10] 0).1.longitude ≤ 180 ∧
     ¬((gt06ServiceDecodeLocation
      [24, 1, 1, 0, 0, 0, 0xC7, 0x01, 0x99, 0x3D, 0xA0, 0x00, 0x8E, 0xD2, 0x80,
       0, 0x14, 0x0A, 0, 1, 0, 0, 13, 10] 0).1.latitude = 0 ∧
       (gt06ServiceDecodeLocation
      [24, 1, 1, 0, 0, 0, 0xC7, 0x01, 0x99, 0x3D, 0xA0, 0x00, 0x8E, 0xD2, 0x80,
       0, 0x14, 0x0A, 0, 1, 0, 0, 13, 10] 0).1.longitude = 0)) ∧
    readU16BE [24, 1, 1, 0, 0, 0, 0xC7, 0x01, 0x99, 0x3D, 0xA0, 0x00, 0x8E, 0xD2, 0x80,
       0, 0x14, 0x0A, 0, 1, 0, 0, 13, 10] (0 + 16) &&& 0x1000 ≠ 0 :=
  claimC4_location_valid_only_if_range_and_fix.1
    [24, 1, 1, 0, 0, 0, 0xC7, 0x01, 0x99, 0x3D, 0xA0, 0x00, 0x8E, 0xD2, 0x80,
     0, 0x14, 0x0A, 0, 1, 0, 0, 13, 10] 0
    (by
      rw [gt06ServiceDecodeLocation_valid, gt06ServiceDecodeLocation_latitude,
        gt06ServiceDecodeLocation_longitude, if_pos (by decide), if_neg (by decide),
        show readU32BE [24, 1, 1, 0, 0, 0, 0xC7, 0x01, 0x99, 0x3D, 0xA0, 0x00, 0x8E, 0xD2,
          0x80, 0, 0x14, 0x0A, 0, 1, 0, 0, 13, 10] (0 + 7) = 26820000 from by decide,
        show readU32BE [24, 1, 1, 0, 0, 0, 0xC7, 0x01, 0x99, 0x3D, 0xA0, 0x00, 0x8E, 0xD2,
          0x80, 0, 0x14, 0x0A, 0, 1, 0, 0, 13, 10] (0 + 11) = 9360000 from by decide,
        show (((26820000 : ℕ) : ℚ) / 1800000) = 149 / 10 from by norm_num,
        show (((9360000 : ℕ) : ℚ) / 1800000) = 26 / 5 from by norm_num]
      rw [show isValidCoordinate (149 / 10) (26 / 5) = true by
        unfold isValidCoordinate
        rw [decide_eq_true_eq]
        norm_num]
      rw [Bool.true_and, decide_eq_true_eq]
      decide)

end GpsListner
